import Mathlib

/-!
A shallow embedding of the variable buffer manager of `src/dpiVar.c` (ODPI-C).

Modelling conventions:
* machine integers (`uint32_t`) are `Nat`; the source performs 32-bit
  arithmetic only in a few places (the chunk-size round-up in
  `dpiVar__allocateDynamicBytes` and the accumulating additions in
  `dpiVar__setBytesFromDynamicBytes`); there the reduction modulo `2^32`
  is made explicit;
* heap buffers are `Option (List Nat)` (a `none` models a NULL pointer, a
  `some l` a buffer whose bytes are the entries of `l`); `malloc` and
  `calloc` are modelled as always succeeding (the `DPI_ERR_NO_MEMORY`
  paths of the source are environment failures outside the model), and a
  buffer obtained from the allocator is modelled as zero-filled;
* the C unions (`dpiVar.data`, `dpiData.value`, `dpiReferenceBuffer`) are
  modelled as records; the source accesses each union consistently through
  the member matching the variable's type, so the record model is faithful
  for every access the source actually performs;
* reference counting (`dpiGen__setRefCount`) is modelled by an explicit
  event list: each `-1` call appends a `release` event and each `+1` call
  an `addRef` event, so "released exactly once" is literal list membership;
* OCI calls (descriptor allocation, `OCIAttrGet`, LOB reads) are external
  collaborators; handles created through them are drawn from an explicit
  `fresh` counter and the calls are modelled as succeeding;
* the source is compiled for Oracle client version >= 12.1, i.e. the
  `#if DPI_ORACLE_CLIENT_VERSION_HEX < ...(12,1)` blocks are excluded,
  matching the modern configuration.
-/

set_option maxRecDepth 10000

namespace ODPI

/-- Oracle type numbers appearing in `dpiVar.c` (`dpiOracleTypeNum`). -/
inductive DpiOracleTypeNum where
  | varchar | nvarchar | char | nchar | rowid | raw | nativeFloat | nativeDouble
  | nativeInt | number | date | timestamp | timestampTZ | timestampLTZ
  | intervalDS | intervalYM | clob | nclob | blob | bfile | stmt | object
  | longVarchar | longNvarchar | longRaw | boolean
deriving DecidableEq, Repr

/-- Native type numbers appearing in `dpiVar.c` (`dpiNativeTypeNum`). -/
inductive DpiNativeTypeNum where
  | int64 | uint64 | float | double | bytes | timestamp | intervalDS
  | intervalYM | lob | object | stmt | rowid | boolean
deriving DecidableEq, Repr

/-- Character-set form (`SQLCS_IMPLICIT` vs the national character set). -/
inductive CharsetForm where
  | implicit | nationalCS
deriving DecidableEq, Repr

/-- The fields of `dpiOracleType` that `dpiVar.c` reads. -/
structure DpiOracleType where
  oracleTypeNum : DpiOracleTypeNum
  defaultNativeTypeNum : DpiNativeTypeNum
  sizeInBytes : Nat
  isCharacterData : Bool
  charsetForm : CharsetForm
  canBeInArray : Bool
  requiresPreFetch : Bool
deriving DecidableEq, Repr

/-- The fields of `dpiEnv` that `dpiVar.c` reads. -/
structure DpiEnv where
  maxBytesPerCharacter : Nat
  nmaxBytesPerCharacter : Nat
  charsetId : Nat
  encoding : Nat
  nencoding : Nat
deriving DecidableEq, Repr

/-- Error taxonomy of the paths modelled here (`DPI_ERR_...`). -/
inductive DpiError where
  | arraySizeZero
  | arraySizeExceeded (maxArraySize : Nat) (pos : Nat)
  | arraySizeTooBig (maxArraySize : Nat)
  | notSupported
  | noMemory
  | noObjectType
  | unhandledConversion
  | bufferSizeTooSmall (sizeInBytes : Nat)
  | columnFetch (pos : Nat) (code : Nat)
  | invalidHandle
deriving DecidableEq, Repr

/-- A reference-count mutation performed through `dpiGen__setRefCount`:
`release h` is a `-1` call on handle `h`, `addRef h` a `+1` call. -/
inductive RefEvent where
  | release (h : Nat)
  | addRef (h : Nat)
deriving DecidableEq, Repr

/-- Modelled from the spec: the fixed basic-buffer threshold
(`DPI_MAX_BASIC_BUFFER_SIZE`, defined in the repository's `dpiImpl.h`,
which is not among the provided sources; the header's value is 32767).
None of the theorems below depend on the particular value. -/
def DPI_MAX_BASIC_BUFFER_SIZE : Nat := 32767

/-- Modelled from the spec: the fixed allocation quantum for dynamic byte
chunks (`DPI_DYNAMIC_BYTES_CHUNK_SIZE` in `dpiImpl.h`, a power of two;
the header's value is 65536 = 2^16, the spec's "e.g. 64 KiB"). -/
def DPI_DYNAMIC_BYTES_CHUNK_SIZE : Nat := 65536

/-- Modelled from the spec: width of the per-slot scratch buffer used when
numbers are transferred as text (`DPI_NUMBER_AS_TEXT_CHARS` in `dpiImpl.h`). -/
def DPI_NUMBER_AS_TEXT_CHARS : Nat := 172

/-- Modelled from the spec: charset id marking a UTF-16 environment
(`DPI_CHARSET_ID_UTF16` in `dpiImpl.h`); only equality with it matters. -/
def DPI_CHARSET_ID_UTF16 : Nat := 1000

/-- OCI null indicator value. -/
def OCI_IND_NULL : Int := -1

/-- OCI not-null indicator value. -/
def OCI_IND_NOTNULL : Int := 0

/-- `INT_MAX` of the platform (32-bit int). -/
def INT_MAX : Nat := 2147483647

/-- One past the largest `uint32_t` value; 32-bit arithmetic reduces mod this. -/
def UINT32_LIMIT : Nat := 4294967296

/-- One chunk of a dynamic byte set (`dpiDynamicBytesChunk`). -/
structure DpiDynamicBytesChunk where
  ptr : Option (List Nat)
  length : Nat
  allocatedLength : Nat
deriving DecidableEq, Repr

/-- A zeroed chunk, as produced by `calloc`. -/
def emptyChunk : DpiDynamicBytesChunk := ⟨none, 0, 0⟩

instance : Inhabited DpiDynamicBytesChunk := ⟨emptyChunk⟩

/-- The per-slot dynamic byte set (`dpiDynamicBytes`). In well-formed states
`allocatedChunks = chunks.length`. -/
structure DpiDynamicBytes where
  chunks : List DpiDynamicBytesChunk
  numChunks : Nat
  allocatedChunks : Nat
deriving DecidableEq, Repr

/-- A zeroed dynamic byte set, as produced by `calloc`. -/
def emptyDynamicBytes : DpiDynamicBytes := ⟨[], 0, 0⟩

instance : Inhabited DpiDynamicBytes := ⟨emptyDynamicBytes⟩

/-- `dpiVar__allocateChunks`: grow the reserved-chunk array by 8, keeping the
first `numChunks` entries (the source `memcpy`s exactly those and frees the
old array). -/
def dpiVar__allocateChunks (d : DpiDynamicBytes) : DpiDynamicBytes :=
  let allocatedChunks := d.allocatedChunks + 8
  { chunks := d.chunks.take d.numChunks ++
      List.replicate (allocatedChunks - d.numChunks) emptyChunk,
    numChunks := d.numChunks,
    allocatedChunks := allocatedChunks }

/-- The source computes `(size + CHUNK - 1) & ~(CHUNK - 1)` on `uint32_t`.
Since `CHUNK = 2^16` divides `2^32`, masking the low bits of the wrapped
32-bit sum is division and multiplication by the quantum. -/
def roundToChunkSize (size : Nat) : Nat :=
  (size + DPI_DYNAMIC_BYTES_CHUNK_SIZE - 1) % UINT32_LIMIT
    / DPI_DYNAMIC_BYTES_CHUNK_SIZE * DPI_DYNAMIC_BYTES_CHUNK_SIZE

/-- `dpiVar__allocateDynamicBytes`: reset `numChunks` to 0, ensure a chunk
array exists, and if the first chunk's reserve is below `size`, free its
buffer and allocate a buffer of the rounded size. -/
def dpiVar__allocateDynamicBytes (d : DpiDynamicBytes) (size : Nat) :
    DpiDynamicBytes :=
  let d := { d with numChunks := 0 }
  let d := if d.allocatedChunks = 0 then dpiVar__allocateChunks d else d
  match d.chunks with
  | [] => d
  | c0 :: rest =>
      if size > c0.allocatedLength then
        let newLen := roundToChunkSize size
        { d with chunks :=
            { ptr := some (List.replicate newLen 0), length := c0.length,
              allocatedLength := newLen } :: rest }
      else d

/-- The caller-visible byte cell (`dpiBytes`): pointer, length, encoding. -/
structure DpiBytes where
  ptr : Option (List Nat)
  length : Nat
  encoding : Nat
deriving DecidableEq, Repr

/-- The 32-bit accumulation `totalAllocatedLength += chunks[i].allocatedLength`
of `dpiVar__setBytesFromDynamicBytes`. -/
def sumAllocated32 : List DpiDynamicBytesChunk → Nat → Nat
  | [], acc => acc
  | c :: rest, acc => sumAllocated32 rest ((acc + c.allocatedLength) % UINT32_LIMIT)

/-- The copy loop of `dpiVar__setBytesFromDynamicBytes`: append each chunk's
valid bytes and accumulate `bytes->length` in 32-bit arithmetic. -/
def consolidateLoop : List DpiDynamicBytesChunk → List Nat × Nat → List Nat × Nat
  | [], acc => acc
  | c :: rest, (content, len) =>
      consolidateLoop rest
        (content ++ (c.ptr.getD []).take c.length, (len + c.length) % UINT32_LIMIT)

/-- `dpiVar__setBytesFromDynamicBytes`: with one chunk, expose it directly;
otherwise allocate one region of the summed reserved size, copy every chunk's
valid bytes in order, free the originals (returned as the third component, in
order of freeing), and replace the chunk list with the consolidated chunk. -/
def dpiVar__setBytesFromDynamicBytes (b : DpiBytes) (d : DpiDynamicBytes) :
    DpiBytes × DpiDynamicBytes × List (List Nat) :=
  if d.numChunks = 1 then
    ({ b with ptr := d.chunks.headI.ptr, length := d.chunks.headI.length }, d, [])
  else
    let taken := d.chunks.take d.numChunks
    let totalAllocated := sumAllocated32 taken 0
    let res := consolidateLoop taken ([], 0)
    let fullBuf := res.1 ++ List.replicate (totalAllocated - res.2) 0
    let newChunk : DpiDynamicBytesChunk :=
      { ptr := some fullBuf, length := res.2, allocatedLength := totalAllocated }
    ({ b with ptr := some fullBuf, length := res.2 },
     { d with
        numChunks := 1
        chunks := newChunk ::
          (List.replicate (d.numChunks - 1) emptyChunk ++ d.chunks.drop d.numChunks) },
     taken.map (fun c => c.ptr.getD []))

/-- The `dpiData.value` union. The source reads each union through the member
matching the variable's native type, so a record is a faithful model of every
access performed. Only members touched by the modelled operations appear;
handles are identified by their `Nat` id. -/
structure DpiDataValue where
  asBytes : DpiBytes
  asLOB : Option Nat
  asObject : Option Nat
  asStmt : Option Nat
  asRowid : Option Nat
deriving DecidableEq, Repr

/-- The caller-visible per-slot cell (`dpiData`). -/
structure DpiData where
  isNull : Bool
  value : DpiDataValue
deriving DecidableEq, Repr

/-- A zeroed cell as produced by `calloc`, before `isNull` is set to 1. -/
def zeroData : DpiData :=
  { isNull := false,
    value := { asBytes := ⟨none, 0, 0⟩, asLOB := none, asObject := none,
               asStmt := none, asRowid := none } }

/-- A freshly allocated cell: `calloc` zeroes it and `dpiVar__allocateBuffers`
then sets `isNull = 1`. -/
def emptyData : DpiData := { zeroData with isNull := true }

instance : Inhabited DpiData := ⟨emptyData⟩

/-- One slot of the `dpiReferenceBuffer` union: the strong reference currently
held (the union's members all alias one pointer, so one field suffices). -/
structure DpiReferenceBuffer where
  asHandle : Option Nat
deriving DecidableEq, Repr

instance : Inhabited DpiReferenceBuffer := ⟨⟨none⟩⟩

/-- The `dpiVar.data` union (`dpiVarData` views of one allocation).
The source accesses the single malloc'd block through the view matching the
variable's type; the record model keeps each view separately. The descriptor
arrays allocated by `OCIArrayDescriptorAlloc` are abstracted to a flag. -/
structure DpiVarData where
  asRaw : Option (List Nat)
  asLobLocator : List (Option Nat)
  asObject : List (Option Nat)
  asStmt : List (Option Nat)
  asRowid : List (Option Nat)
  hasDescriptors : Bool
deriving DecidableEq, Repr

/-- The all-NULL `dpiVar.data` union of a freshly zeroed variable. -/
def emptyVarData : DpiVarData :=
  { asRaw := none, asLobLocator := [], asObject := [], asStmt := [],
    asRowid := [], hasDescriptors := false }

/-- The fields of `dpiVar` read or written by the modelled operations. -/
structure DpiVar where
  type : DpiOracleType
  nativeTypeNum : DpiNativeTypeNum
  maxArraySize : Nat
  sizeInBytes : Nat
  isDynamic : Bool
  isArray : Bool
  requiresPreFetch : Bool
  env : DpiEnv
  objectTypePresent : Bool
  data : DpiVarData
  indicator : Option (List Int)
  actualLength : Option (List Nat)
  returnCode : Option (List Nat)
  tempBuffer : Option (List Nat)
  externalData : Option (List DpiData)
  dynamicBytes : Option (List DpiDynamicBytes)
  references : Option (List DpiReferenceBuffer)
  objectIndicator : Option (List (Option Nat))
  actualArraySize : Nat
deriving DecidableEq, Repr

/-- A placeholder variable (only used to make `Inhabited` instances possible
for result structures; no theorem depends on its contents). -/
def defaultVar : DpiVar :=
  { type := { oracleTypeNum := .varchar, defaultNativeTypeNum := .bytes,
              sizeInBytes := 0, isCharacterData := true,
              charsetForm := .implicit, canBeInArray := true,
              requiresPreFetch := false },
    nativeTypeNum := .bytes, maxArraySize := 1, sizeInBytes := 1,
    isDynamic := false, isArray := false, requiresPreFetch := false,
    env := ⟨1, 2, 0, 0, 0⟩, objectTypePresent := false,
    data := emptyVarData, indicator := none, actualLength := none,
    returnCode := none, tempBuffer := none, externalData := none,
    dynamicBytes := none, references := none, objectIndicator := none,
    actualArraySize := 0 }

instance : Inhabited DpiVar := ⟨defaultVar⟩

/-- Apply `f i a` to each element, `i` counting up from `n`; models the
indexed per-slot loops of the source. -/
def mapIdxFrom (f : Nat → α → α) : Nat → List α → List α
  | _, [] => []
  | n, a :: rest => f n a :: mapIdxFrom f (n + 1) rest

/-- The release calls a per-slot loop performs on the previously held strong
references, in slot order (`dpiGen__setRefCount(..., -1)` on each non-NULL
entry). -/
def releaseEvents (refs : List DpiReferenceBuffer) : List RefEvent :=
  refs.filterMap (fun r => r.asHandle.map RefEvent.release)

/-- Result of `dpiVar__allocateBuffers`: the (possibly partially mutated)
variable and the error, if any. -/
structure ABRes where
  var : DpiVar
  err : Option DpiError
deriving Repr

/-- Result of prefetch-style operations: variable, next fresh handle id, and
reference-count events in program order. -/
structure PFRes where
  var : DpiVar
  fresh : Nat
  events : List RefEvent
deriving Repr

/-- Result of `dpiVar__extendedInitialize` / `dpiVar__initBuffers`. -/
structure EIRes where
  var : DpiVar
  fresh : Nat
  events : List RefEvent
  err : Option DpiError
deriving Repr

/-- The element size in bytes computed by `dpiVar__allocate` (lines 69-78):
a zero requested size is first replaced by 1; a fixed wire size wins;
otherwise character counts are scaled by the connection's bytes-per-character
(32-bit multiplication). -/
def dpiVar__computedSizeInBytes (env : DpiEnv) (type : DpiOracleType)
    (size : Nat) (sizeIsBytes : Bool) : Nat :=
  let size := if size = 0 then 1 else size
  if type.sizeInBytes ≠ 0 then type.sizeInBytes
  else if sizeIsBytes || !type.isCharacterData then size
  else if type.charsetForm = .implicit then
    size * env.maxBytesPerCharacter % UINT32_LIMIT
  else size * env.nmaxBytesPerCharacter % UINT32_LIMIT

/-- `dpiVar__validateTypes`: the whitelist of non-default native types. -/
def dpiVar__validateTypes (type : DpiOracleType)
    (nativeTypeNum : DpiNativeTypeNum) : Option DpiError :=
  match type.oracleTypeNum with
  | .timestamp | .timestampTZ | .timestampLTZ =>
      if nativeTypeNum = .double then none else some .unhandledConversion
  | .nativeInt =>
      if nativeTypeNum = .uint64 then none else some .unhandledConversion
  | .number =>
      if nativeTypeNum = .int64 ∨ nativeTypeNum = .uint64 ∨
          nativeTypeNum = .bytes then none
      else some .unhandledConversion
  | _ => some .unhandledConversion

/-- Step of `dpiVar__allocateBuffers` (lines 136-153): dynamic variables get
a `dpiDynamicBytes` array of `maxArraySize` entries; all others get the single
value array of `maxArraySize * sizeInBytes` bytes (the union's other views are
the same block, shown freshly cleared). -/
def abStepData (var : DpiVar) : DpiVar :=
  if var.isDynamic then
    { var with
        dynamicBytes := some (List.replicate var.maxArraySize emptyDynamicBytes) }
  else
    { var with data := { var.data with
        asRaw := some (List.replicate (var.maxArraySize * var.sizeInBytes) 0)
        asLobLocator := List.replicate var.maxArraySize none
        asObject := List.replicate var.maxArraySize none
        asStmt := List.replicate var.maxArraySize none
        asRowid := List.replicate var.maxArraySize none } }

/-- Step of `dpiVar__allocateBuffers` (lines 155-164): allocate the indicator
array if absent, all slots starting out null. -/
def abStepIndicator (var : DpiVar) : DpiVar :=
  if var.indicator = none then
    { var with indicator := some (List.replicate var.maxArraySize OCI_IND_NULL) }
  else var

/-- Step of `dpiVar__allocateBuffers` (lines 166-176): allocate the actual
length array for non-dynamic variables if absent, entries starting at the
element size. -/
def abStepActualLength (var : DpiVar) : DpiVar :=
  if var.isDynamic = false ∧ var.actualLength = none then
    { var with actualLength := some (List.replicate var.maxArraySize var.sizeInBytes) }
  else var

/-- Step of `dpiVar__allocateBuffers` (lines 178-185): allocate the return
code array for variable-length (default native type bytes), non-dynamic
variables if absent. -/
def abStepReturnCode (var : DpiVar) : DpiVar :=
  if var.type.defaultNativeTypeNum = .bytes ∧ var.isDynamic = false ∧
      var.returnCode = none then
    { var with returnCode := some (List.replicate var.maxArraySize 0) }
  else var

/-- The per-slot scratch width of `dpiVar__allocateBuffers` (lines 191-193),
doubled in a UTF-16 environment. -/
def abTempBufferSize (var : DpiVar) : Nat :=
  if var.env.charsetId = DPI_CHARSET_ID_UTF16 then DPI_NUMBER_AS_TEXT_CHARS * 2
  else DPI_NUMBER_AS_TEXT_CHARS

/-- Step of `dpiVar__allocateBuffers` (lines 187-200): numbers transferred as
bytes get the scratch buffer, if absent. -/
def abStepTempBuffer (var : DpiVar) : DpiVar :=
  if var.type.oracleTypeNum = .number ∧ var.nativeTypeNum = .bytes ∧
      var.tempBuffer = none then
    { var with
        tempBuffer := some (List.replicate (abTempBufferSize var * var.maxArraySize) 0) }
  else var

/-- Step of `dpiVar__allocateBuffers` (lines 202-210): allocate the external
data array if absent, every cell starting out null. -/
def abStepExternalData (var : DpiVar) : DpiVar :=
  if var.externalData = none then
    { var with externalData := some (List.replicate var.maxArraySize emptyData) }
  else var

/-- Step of `dpiVar__allocateBuffers` (lines 212-224): for bytes transfers,
set each cell's encoding and pre-wire its byte pointer at the slot's region of
the scratch buffer or of the fixed value array; dynamic cells stay unpointed. -/
def abStepBytesPointers (var : DpiVar) : DpiVar :=
  if var.nativeTypeNum = .bytes then
    { var with externalData := var.externalData.map (fun cells =>
        cells.map (fun c =>
          let enc := if var.type.charsetForm = .implicit then var.env.encoding
            else var.env.nencoding
          let b := { c.value.asBytes with encoding := enc }
          let b :=
            if var.tempBuffer.isSome then
              { b with ptr := some (List.replicate (abTempBufferSize var) 0) }
            else if var.actualLength.isSome ∧ var.dynamicBytes = none then
              { b with ptr := some (List.replicate var.sizeInBytes 0) }
            else b
          { c with value := { c.value with asBytes := b } })) }
  else var

/-- `dpiVar__allocateBuffers` (lines 130-227). Memory allocation is modelled
as succeeding, so the only failure is the `INT_MAX` length check; on success
the steps above run in source order. -/
def dpiVar__allocateBuffers (var : DpiVar) : ABRes :=
  if var.isDynamic = false ∧ var.maxArraySize * var.sizeInBytes > INT_MAX then
    { var := var, err := some (.arraySizeTooBig var.maxArraySize) }
  else
    { var := abStepBytesPointers (abStepExternalData (abStepTempBuffer
        (abStepReturnCode (abStepActualLength (abStepIndicator (abStepData var)))))),
      err := none }

/-- `dpiVar__extendedPreFetch` (lines 536-630): for dynamic variables, reset
every slot's chunk count; otherwise, per complex-handle type, release each
slot's previous strong reference and acquire a fresh underlying handle
(handles are drawn from the `fresh` counter; external allocation succeeds). -/
def dpiVar__extendedPreFetch (var : DpiVar) (fresh : Nat) : PFRes :=
  if var.isDynamic then
    { var := { var with dynamicBytes := var.dynamicBytes.map (fun l =>
        l.map (fun d => { d with numChunks := 0 })) },
      fresh := fresh, events := [] }
  else
    match var.type.oracleTypeNum with
    | .stmt =>
        let cap := var.maxArraySize
        { var := { var with
            references := some ((List.range cap).map (fun i =>
              (⟨some (fresh + i)⟩ : DpiReferenceBuffer)))
            data := { var.data with
              asStmt := (List.range cap).map (fun i => some (fresh + i)) }
            externalData := var.externalData.map (fun cells =>
              mapIdxFrom (fun i c =>
                { c with value := { c.value with asStmt := some (fresh + i) } }) 0 cells) },
          fresh := fresh + cap,
          events := releaseEvents (var.references.getD []) }
    | .clob | .blob | .nclob | .bfile =>
        let cap := var.maxArraySize
        { var := { var with
            references := some ((List.range cap).map (fun i =>
              (⟨some (fresh + i)⟩ : DpiReferenceBuffer)))
            data := { var.data with
              asLobLocator := (List.range cap).map (fun i => some (fresh + i)) }
            externalData := var.externalData.map (fun cells =>
              mapIdxFrom (fun i c =>
                { c with value := { c.value with asLOB := some (fresh + i) } }) 0 cells) },
          fresh := fresh + cap,
          events := releaseEvents (var.references.getD []) }
    | .rowid =>
        let cap := var.maxArraySize
        { var := { var with
            references := some ((List.range cap).map (fun i =>
              (⟨some (fresh + i)⟩ : DpiReferenceBuffer)))
            data := { var.data with
              asRowid := (List.range cap).map (fun i => some (fresh + i)) }
            externalData := var.externalData.map (fun cells =>
              mapIdxFrom (fun i c =>
                { c with value := { c.value with asRowid := some (fresh + i) } }) 0 cells) },
          fresh := fresh + cap,
          events := releaseEvents (var.references.getD []) }
    | .object =>
        { var := { var with
            references := some (List.replicate var.maxArraySize ⟨none⟩)
            data := { var.data with
              asObject := List.replicate var.maxArraySize none }
            objectIndicator := var.objectIndicator.map (fun _ =>
              List.replicate var.maxArraySize none)
            externalData := var.externalData.map (fun cells =>
              cells.map (fun c =>
                { c with value := { c.value with asObject := none } })) },
          fresh := fresh,
          events := releaseEvents (var.references.getD []) }
    | _ => { var := var, fresh := fresh, events := [] }

/-- `dpiVar__extendedInitialize` (lines 469-529): build the reference array
for prefetch types, allocate descriptor arrays for temporal types, and run
the prefetch for complex-handle types. For objects, require an object type
and allocate the raw-indicator-pointer array. -/
def dpiVar__extendedInitialize (var : DpiVar) (fresh : Nat) : EIRes :=
  let var :=
    if var.type.requiresPreFetch = true ∧ var.isDynamic = false then
      { var with references := some (List.replicate var.maxArraySize ⟨none⟩) }
    else var
  match var.type.oracleTypeNum with
  | .timestamp | .timestampTZ | .timestampLTZ | .intervalDS | .intervalYM =>
      { var := { var with data := { var.data with hasDescriptors := true } },
        fresh := fresh, events := [], err := none }
  | .clob | .blob | .nclob | .bfile | .stmt | .rowid =>
      let r := dpiVar__extendedPreFetch var fresh
      { var := r.var, fresh := r.fresh, events := r.events, err := none }
  | .object =>
      if var.objectTypePresent = false then
        { var := var, fresh := fresh, events := [], err := some .noObjectType }
      else
        let var := { var with
          objectIndicator := some (List.replicate var.maxArraySize none) }
        let r := dpiVar__extendedPreFetch var fresh
        { var := r.var, fresh := r.fresh, events := r.events, err := none }
  | _ => { var := var, fresh := fresh, events := [], err := none }

/-- `dpiVar__initBuffers`: `dpiVar__allocateBuffers` then
`dpiVar__extendedInitialize`. -/
def dpiVar__initBuffers (var : DpiVar) (fresh : Nat) : EIRes :=
  let ab := dpiVar__allocateBuffers var
  match ab.err with
  | some e => { var := ab.var, fresh := fresh, events := [], err := some e }
  | none => dpiVar__extendedInitialize ab.var fresh

/-- `dpiVar__finalizeBuffers` (lines 637-739): free the descriptor arrays,
release every held strong reference, free every chunk and every per-slot
array. The released handles are returned as events in slot order. -/
def dpiVar__finalizeBuffers (var : DpiVar) : DpiVar × List RefEvent :=
  let events := releaseEvents (var.references.getD [])
  ({ var with
      data := emptyVarData
      references := none
      dynamicBytes := none
      indicator := none
      returnCode := none
      actualLength := none
      externalData := none
      objectIndicator := none
      tempBuffer := none },
   events)

/-- The freshly zeroed variable built by `dpiVar__allocate` (lines 80-112):
element size computed per lines 69-78 and cleared when it exceeds the
basic-buffer threshold, in which case the variable is dynamic and marked for
prefetching. -/
def allocVar0 (env : DpiEnv) (type : DpiOracleType)
    (nativeTypeNum : DpiNativeTypeNum) (maxArraySize : Nat) (size : Nat)
    (sizeIsBytes : Bool) (isArray : Bool) (objectTypePresent : Bool) : DpiVar :=
  let sizeInBytes := dpiVar__computedSizeInBytes env type size sizeIsBytes
  let isDyn := decide (sizeInBytes > DPI_MAX_BASIC_BUFFER_SIZE)
  { type := type, nativeTypeNum := nativeTypeNum,
    maxArraySize := maxArraySize,
    sizeInBytes := if isDyn then 0 else sizeInBytes,
    isDynamic := isDyn, isArray := isArray,
    requiresPreFetch := isDyn, env := env,
    objectTypePresent := objectTypePresent,
    data := emptyVarData, indicator := none, actualLength := none,
    returnCode := none, tempBuffer := none, externalData := none,
    dynamicBytes := none, references := none, objectIndicator := none,
    actualArraySize := 0 }

/-- `dpiVar__allocate` (lines 44-123). The type descriptor is passed directly
(the `dpiOracleType__getFromNum` table lookup is the caller's concern); the
object-type handle is abstracted to its presence. Returns the variable and
the next fresh handle id. -/
def dpiVar__allocate (env : DpiEnv) (type : DpiOracleType)
    (nativeTypeNum : DpiNativeTypeNum) (maxArraySize : Nat) (size : Nat)
    (sizeIsBytes : Bool) (isArray : Bool) (objectTypePresent : Bool)
    (fresh : Nat) : Except DpiError (DpiVar × Nat) :=
  if maxArraySize = 0 then .error .arraySizeZero
  else if isArray = true ∧ type.canBeInArray = false then .error .notSupported
  else
    match (if nativeTypeNum = type.defaultNativeTypeNum then none
           else dpiVar__validateTypes type nativeTypeNum) with
    | some e => .error e
    | none =>
        let r := dpiVar__initBuffers (allocVar0 env type nativeTypeNum
          maxArraySize size sizeIsBytes isArray objectTypePresent) fresh
        match r.err with
        | some e => .error e
        | none => .ok (r.var, r.fresh)

/-- The buffer pointer handed to OCI for one slot, abstracted to which array
it points into and at which slot/offset (`dpiVar__assignCallbackBuffer`,
lines 295-317). -/
inductive CallbackBuffer where
  | timestampDesc (index : Nat)
  | intervalDesc (index : Nat)
  | lobLocator (index : Nat)
  | bytesAt (offset : Nat)
deriving DecidableEq, Repr

/-- `dpiVar__assignCallbackBuffer`: descriptor types hand out the slot's
descriptor, LOB types the slot's locator, everything else the address
`data.asBytes + index * sizeInBytes`. -/
def dpiVar__assignCallbackBuffer (var : DpiVar) (index : Nat) : CallbackBuffer :=
  match var.type.oracleTypeNum with
  | .timestamp | .timestampTZ | .timestampLTZ => .timestampDesc index
  | .intervalDS | .intervalYM => .intervalDesc index
  | .clob | .blob | .nclob | .bfile => .lobLocator index
  | _ => .bytesAt (index * var.sizeInBytes)

/-- Result of one `dpiVar__outBindCallback` invocation. -/
structure OBRes where
  var : DpiVar
  fresh : Nat
  events : List RefEvent
  buf : CallbackBuffer
deriving Repr

instance : Inhabited OBRes :=
  ⟨{ var := defaultVar, fresh := 0, events := [], buf := .bytesAt 0 }⟩

/-- The variable after the growth teardown of `dpiVar__outBindCallback`
(lines 968-972): buffers finalized and the capacity replaced by the reported
row count. -/
def grownVar (var : DpiVar) (numRowsReturned : Nat) : DpiVar :=
  { (dpiVar__finalizeBuffers var).1 with maxArraySize := numRowsReturned }

/-- `dpiVar__outBindCallback` (lines 950-1004), the DML-returning bind
callback. On index 0 the reported row count is read from OCI (modelled as the
`numRowsReturned` argument); if it exceeds the capacity, the buffers are
finalized and re-initialized under the new capacity. Every call then assigns
the callback buffer for its slot and, when an actual length array exists,
records the element size in the slot's entry (>= 12.1 branch); the common
tail of the source appears in both branches here. -/
def dpiVar__outBindCallback (var : DpiVar) (fresh : Nat)
    (numRowsReturned : Nat) (index : Nat) : Except DpiError OBRes :=
  if index = 0 ∧ numRowsReturned > var.maxArraySize then
    match (dpiVar__initBuffers (grownVar var numRowsReturned) fresh).err with
    | some e => .error e
    | none =>
        .ok { var := { (dpiVar__initBuffers (grownVar var numRowsReturned)
                fresh).var with
              actualLength := (dpiVar__initBuffers (grownVar var numRowsReturned)
                fresh).var.actualLength.map (fun l => l.set index
                  (dpiVar__initBuffers (grownVar var numRowsReturned)
                    fresh).var.sizeInBytes) }
              fresh := (dpiVar__initBuffers (grownVar var numRowsReturned)
                fresh).fresh
              events := (dpiVar__finalizeBuffers var).2 ++
                (dpiVar__initBuffers (grownVar var numRowsReturned) fresh).events
              buf := dpiVar__assignCallbackBuffer
                (dpiVar__initBuffers (grownVar var numRowsReturned) fresh).var
                index }
  else
    .ok { var := { var with
            actualLength := var.actualLength.map (fun l => l.set index var.sizeInBytes) }
          fresh := fresh, events := [],
          buf := dpiVar__assignCallbackBuffer var index }

/-- Iterate `dpiVar__outBindCallback` over consecutive slot indices starting
at `i`, as the OCI driver does during one returning-style execute, collecting
the buffer pointers handed out. -/
def outBindRunAux (reported : Nat) :
    DpiVar → Nat → Nat → Nat → Except DpiError (DpiVar × Nat × List CallbackBuffer)
  | var, fresh, _, 0 => .ok (var, fresh, [])
  | var, fresh, i, k + 1 =>
      match dpiVar__outBindCallback var fresh reported i with
      | .error e => .error e
      | .ok r =>
          match outBindRunAux reported r.var r.fresh (i + 1) k with
          | .error e => .error e
          | .ok (v, f, bufs) => .ok (v, f, r.buf :: bufs)

/-- One returning-style execute: the driver invokes the out-bind callback for
slot indices `0, 1, ..., n-1` in increasing order. -/
def dpiVar__outBindRun (var : DpiVar) (fresh : Nat) (reported : Nat) (n : Nat) :
    Except DpiError (DpiVar × Nat × List CallbackBuffer) :=
  outBindRunAux reported var fresh 0 n

/-- `dpiVar_resize` (lines 1548-1562): only byte native kinds may be resized;
dynamic-bytes variables succeed with no work; otherwise the value array is
freed, the element size replaced, and `dpiVar__allocateBuffers` re-run. -/
def dpiVar_resize (var : DpiVar) (sizeInBytes : Nat) : DpiVar × Option DpiError :=
  if var.nativeTypeNum ≠ .bytes then (var, some .notSupported)
  else if var.dynamicBytes.isSome then (var, none)
  else
    let r := dpiVar__allocateBuffers
      { var with data := { var.data with asRaw := none }, sizeInBytes := sizeInBytes }
    (r.var, r.err)

/-- Mark the slot's external cell not null (`data->isNull = 0`). -/
def setCellNotNull (var : DpiVar) (pos : Nat) : DpiVar :=
  { var with externalData := var.externalData.map (fun cells =>
      cells.set pos { cells.getD pos emptyData with isNull := false }) }

/-- Write `value` into the slot's dynamic byte set, as the dynamic branch of
`dpiVar__setFromBytes` does (lines 1133-1141): allocate one chunk, copy the
bytes in, set `numChunks` and the chunk length, and point the external cell's
bytes at the chunk. -/
def setFromBytesDynamic (var : DpiVar) (pos : Nat) (value : List Nat) : DpiVar :=
  let dyn0 := (var.dynamicBytes.getD []).getD pos emptyDynamicBytes
  let dyn1 := dpiVar__allocateDynamicBytes dyn0 value.length
  let dyn2 :=
    match dyn1.chunks with
    | [] => dyn1
    | c :: rest =>
        { dyn1 with
            numChunks := 1
            chunks := { c with
              ptr := some (value ++ (c.ptr.getD []).drop value.length)
              length := value.length } :: rest }
  { var with
      dynamicBytes := var.dynamicBytes.map (fun l => l.set pos dyn2)
      externalData := var.externalData.map (fun cells =>
        cells.set pos
          (let c := cells.getD pos emptyData
           { c with value := { c.value with asBytes :=
              { c.value.asBytes with
                  ptr := some (value ++ ((dyn2.chunks.headI.ptr.getD []).drop value.length))
                  length := value.length } } })) }

/-- Write `value` through the slot's pre-wired byte pointer, as the fixed
branch of `dpiVar__setFromBytes` does (lines 1143-1152): set the cell length,
copy the bytes (when any), and update the actual-length and return-code
entries when those arrays exist. -/
def setFromBytesFixed (var : DpiVar) (pos : Nat) (value : List Nat) : DpiVar :=
  { var with
      externalData := var.externalData.map (fun cells =>
        cells.set pos
          (let c := cells.getD pos emptyData
           let b := c.value.asBytes
           let b := { b with
              length := value.length
              ptr := if value.length > 0 then
                  some (value ++ (b.ptr.getD []).drop value.length)
                else b.ptr }
           { c with value := { c.value with asBytes := b } }))
      actualLength := var.actualLength.map (fun l => l.set pos value.length)
      returnCode := var.returnCode.map (fun l => l.set pos 0) }

/-- `dpiVar__setFromBytes` (lines 1105-1155). The guard rejects values longer
than the scratch width (scratch-buffer case) or the element size (fixed case)
before any mutation; then the cell is marked not null and the value is written
to the slot's LOB (reference-tracked variables; the LOB write is external to
the variable), its dynamic byte set, or its fixed region. -/
def dpiVar__setFromBytes (var : DpiVar) (pos : Nat) (value : List Nat) :
    DpiVar × List RefEvent × Option DpiError :=
  if (var.tempBuffer.isSome ∧ var.env.charsetId = DPI_CHARSET_ID_UTF16 ∧
        value.length > DPI_NUMBER_AS_TEXT_CHARS * 2) ∨
      (var.tempBuffer.isSome ∧ ¬var.env.charsetId = DPI_CHARSET_ID_UTF16 ∧
        value.length > DPI_NUMBER_AS_TEXT_CHARS) ∨
      (var.dynamicBytes = none ∧ var.tempBuffer = none ∧
        value.length > var.sizeInBytes) then
    (var, [], some (.bufferSizeTooSmall var.sizeInBytes))
  else
    let var := setCellNotNull var pos
    if var.references.isSome then (var, [], none)
    else if var.dynamicBytes.isSome then (setFromBytesDynamic var pos value, [], none)
    else (setFromBytesFixed var pos value, [], none)

/-- `dpiVar_setFromBytes` (lines 1572-1583): check the array position and the
native type, then delegate. -/
def dpiVar_setFromBytes (var : DpiVar) (pos : Nat) (value : List Nat) :
    DpiVar × List RefEvent × Option DpiError :=
  if pos ≥ var.maxArraySize then
    (var, [], some (.arraySizeExceeded var.maxArraySize pos))
  else if var.nativeTypeNum ≠ .bytes then (var, [], some .notSupported)
  else dpiVar__setFromBytes var pos value

/-- The slot's current strong reference. -/
def refAt (var : DpiVar) (pos : Nat) : Option Nat :=
  ((var.references.getD []).getD pos ⟨none⟩).asHandle

/-- `dpiVar__setFromLob` (lines 1163-1192): mark the cell not null; if the
slot already references this LOB, do nothing more; otherwise release the
previous reference (if any), add a reference to the LOB, and publish its
locator into the native array and the cell. -/
def dpiVar__setFromLob (var : DpiVar) (pos : Nat) (lob : Nat) :
    DpiVar × List RefEvent :=
  let var := setCellNotNull var pos
  if refAt var pos = some lob then (var, [])
  else
    let events :=
      match refAt var pos with
      | some old => [RefEvent.release old, RefEvent.addRef lob]
      | none => [RefEvent.addRef lob]
    ({ var with
        references := var.references.map (fun rs => rs.set pos ⟨some lob⟩)
        data := { var.data with asLobLocator := var.data.asLobLocator.set pos (some lob) }
        externalData := var.externalData.map (fun cells =>
          cells.set pos
            (let c := cells.getD pos emptyData
             { c with value := { c.value with asLOB := some lob } })) },
     events)

/-- `dpiVar__setFromObject` (lines 1201-1231): same discipline as
`dpiVar__setFromLob`, additionally publishing the object's instance and
indicator. -/
def dpiVar__setFromObject (var : DpiVar) (pos : Nat) (obj : Nat) :
    DpiVar × List RefEvent :=
  let var := setCellNotNull var pos
  if refAt var pos = some obj then (var, [])
  else
    let events :=
      match refAt var pos with
      | some old => [RefEvent.release old, RefEvent.addRef obj]
      | none => [RefEvent.addRef obj]
    ({ var with
        references := var.references.map (fun rs => rs.set pos ⟨some obj⟩)
        data := { var.data with asObject := var.data.asObject.set pos (some obj) }
        objectIndicator := var.objectIndicator.map (fun l => l.set pos (some obj))
        externalData := var.externalData.map (fun cells =>
          cells.set pos
            (let c := cells.getD pos emptyData
             { c with value := { c.value with asObject := some obj } })) },
     events)

/-- `dpiVar__setFromRowid` (lines 1239-1268): same discipline, publishing the
rowid's handle. -/
def dpiVar__setFromRowid (var : DpiVar) (pos : Nat) (rowid : Nat) :
    DpiVar × List RefEvent :=
  let var := setCellNotNull var pos
  if refAt var pos = some rowid then (var, [])
  else
    let events :=
      match refAt var pos with
      | some old => [RefEvent.release old, RefEvent.addRef rowid]
      | none => [RefEvent.addRef rowid]
    ({ var with
        references := var.references.map (fun rs => rs.set pos ⟨some rowid⟩)
        data := { var.data with asRowid := var.data.asRowid.set pos (some rowid) }
        externalData := var.externalData.map (fun cells =>
          cells.set pos
            (let c := cells.getD pos emptyData
             { c with value := { c.value with asRowid := some rowid } })) },
     events)

/-- `dpiVar__setFromStmt` (lines 1276-1305): same discipline, publishing the
statement's handle. -/
def dpiVar__setFromStmt (var : DpiVar) (pos : Nat) (stmt : Nat) :
    DpiVar × List RefEvent :=
  let var := setCellNotNull var pos
  if refAt var pos = some stmt then (var, [])
  else
    let events :=
      match refAt var pos with
      | some old => [RefEvent.release old, RefEvent.addRef stmt]
      | none => [RefEvent.addRef stmt]
    ({ var with
        references := var.references.map (fun rs => rs.set pos ⟨some stmt⟩)
        data := { var.data with asStmt := var.data.asStmt.set pos (some stmt) }
        externalData := var.externalData.map (fun cells =>
          cells.set pos
            (let c := cells.getD pos emptyData
             { c with value := { c.value with asStmt := some stmt } })) },
     events)

/-- `dpiVar__copyData` (lines 386-419): copy the source cell's null flag into
the target cell; a null source short-circuits with success; otherwise
dispatch on the native type to the matching set operation, or copy the whole
cell for directly-stored values. -/
def dpiVar__copyData (var : DpiVar) (pos : Nat) (sourceData : DpiData) :
    DpiVar × List RefEvent × Option DpiError :=
  let var := { var with externalData := var.externalData.map (fun cells =>
      cells.set pos { cells.getD pos emptyData with isNull := sourceData.isNull }) }
  if sourceData.isNull then (var, [], none)
  else
    match var.nativeTypeNum with
    | .bytes =>
        dpiVar__setFromBytes var pos
          ((sourceData.value.asBytes.ptr.getD []).take sourceData.value.asBytes.length)
    | .lob =>
        match sourceData.value.asLOB with
        | some h => let r := dpiVar__setFromLob var pos h; (r.1, r.2, none)
        | none => (var, [], some .invalidHandle)
    | .object =>
        match sourceData.value.asObject with
        | some h => let r := dpiVar__setFromObject var pos h; (r.1, r.2, none)
        | none => (var, [], some .invalidHandle)
    | .stmt =>
        match sourceData.value.asStmt with
        | some h => let r := dpiVar__setFromStmt var pos h; (r.1, r.2, none)
        | none => (var, [], some .invalidHandle)
    | .rowid =>
        match sourceData.value.asRowid with
        | some h => let r := dpiVar__setFromRowid var pos h; (r.1, r.2, none)
        | none => (var, [], some .invalidHandle)
    | _ =>
        ({ var with externalData := var.externalData.map (fun cells =>
            cells.set pos sourceData) }, [], none)

/-! Concrete inputs used to instantiate the theorems below. -/

/-- An environment with 1-byte implicit and 2-byte national characters and a
non-UTF-16 charset. -/
def exEnv : DpiEnv :=
  { maxBytesPerCharacter := 1, nmaxBytesPerCharacter := 2, charsetId := 873,
    encoding := 5, nencoding := 6 }

/-- A VARCHAR type descriptor: variable length character data, default native
type bytes. -/
def exTypeVarchar : DpiOracleType :=
  { oracleTypeNum := .varchar, defaultNativeTypeNum := .bytes, sizeInBytes := 0,
    isCharacterData := true, charsetForm := .implicit, canBeInArray := true,
    requiresPreFetch := false }

/-- The external cells of `exFixedVar`: slot 0 populated, slots 1 and 2 null. -/
def exCells : List DpiData :=
  [{ isNull := false,
     value := { asBytes := ⟨some [7, 7, 0, 0], 2, 5⟩, asLOB := none,
                asObject := none, asStmt := none, asRowid := none } },
   emptyData, emptyData]

/-- A fixed byte-kind variable with 3 slots of 4 bytes, slot 0 populated. -/
def exFixedVar : DpiVar :=
  { type := exTypeVarchar, nativeTypeNum := .bytes, maxArraySize := 3,
    sizeInBytes := 4, isDynamic := false, isArray := false,
    requiresPreFetch := false, env := exEnv, objectTypePresent := false,
    data := { emptyVarData with asRaw := some (List.replicate 12 0) },
    indicator := some [OCI_IND_NOTNULL, OCI_IND_NULL, OCI_IND_NULL],
    actualLength := some [2, 4, 4], returnCode := some [0, 0, 0],
    tempBuffer := none,
    externalData := some exCells,
    dynamicBytes := none, references := none, objectIndicator := none,
    actualArraySize := 3 }

/-- `exFixedVar` rebound to an integer native kind (for the resize
`NotSupported` case). -/
def exVarInt : DpiVar := { exFixedVar with nativeTypeNum := .int64 }

/-- `exFixedVar` turned into a dynamic-bytes variable (for the resize no-op
case). -/
def exVarDyn : DpiVar :=
  { exFixedVar with
      isDynamic := true
      sizeInBytes := 0
      dynamicBytes := some (List.replicate 3 emptyDynamicBytes)
      data := emptyVarData }

/-- A CLOB type descriptor (complex handle, prefetch). -/
def exTypeClob : DpiOracleType :=
  { oracleTypeNum := .clob, defaultNativeTypeNum := .lob, sizeInBytes := 8,
    isCharacterData := true, charsetForm := .implicit, canBeInArray := false,
    requiresPreFetch := true }

/-- A LOB variable with 2 slots whose slot 0 holds a reference to handle 41. -/
def exRefVar : DpiVar :=
  { type := exTypeClob, nativeTypeNum := .lob, maxArraySize := 2,
    sizeInBytes := 8, isDynamic := false, isArray := false,
    requiresPreFetch := false, env := exEnv, objectTypePresent := false,
    data := { emptyVarData with
                asRaw := some (List.replicate 16 0)
                asLobLocator := [some 41, none]
                asObject := [none, none]
                asStmt := [none, none]
                asRowid := [none, none] },
    indicator := some [OCI_IND_NOTNULL, OCI_IND_NULL],
    actualLength := some [8, 8], returnCode := none, tempBuffer := none,
    externalData := some [emptyData, emptyData],
    dynamicBytes := none, references := some [⟨some 41⟩, ⟨none⟩],
    objectIndicator := some [some 41, none], actualArraySize := 2 }

/-- First chunk of the consolidation example: 100 valid bytes. -/
def exChunkA : DpiDynamicBytesChunk := ⟨some (List.replicate 4096 1), 100, 4096⟩

/-- Second chunk of the consolidation example: 4096 valid bytes. -/
def exChunkB : DpiDynamicBytesChunk := ⟨some (List.replicate 4096 2), 4096, 4096⟩

/-- Third chunk of the consolidation example: 37 valid bytes. -/
def exChunkC : DpiDynamicBytesChunk := ⟨some (List.replicate 4096 3), 37, 4096⟩

/-- A dynamic byte set holding three chunks of valid lengths 100, 4096 and 37
(reserves of 4096 bytes each), the spec's consolidation example. -/
def exDyn3 : DpiDynamicBytes :=
  { chunks := [exChunkA, exChunkB, exChunkC] ++ List.replicate 5 emptyChunk,
    numChunks := 3, allocatedChunks := 8 }

/-- A dynamic byte set holding exactly one chunk. -/
def exDynOne : DpiDynamicBytes :=
  { chunks := [⟨some [5, 6, 0, 0], 2, 4⟩], numChunks := 1, allocatedChunks := 1 }

/-- An empty bytes cell. -/
def exBytes : DpiBytes := ⟨none, 0, 5⟩

/-- The variable of the late-growth scenario: capacity 5, element size 10. -/
def exVar5 : DpiVar :=
  match dpiVar__allocate exEnv exTypeVarchar .bytes 5 10 true false false 0 with
  | .ok p => p.1
  | .error _ => defaultVar

/-- The result of the slot-0 out-bind callback on `exVar5` with a reported
row count of 12. -/
def exOB5 : OBRes :=
  match dpiVar__outBindCallback exVar5 0 12 0 with
  | .ok r => r
  | .error _ => default

/-- The result of allocating a dynamic variable (element size 40000 exceeds
the basic-buffer threshold). -/
def exR1 : DpiVar × Nat :=
  match dpiVar__allocate exEnv exTypeVarchar .bytes 2 40000 true false false 0 with
  | .ok p => p
  | .error _ => (defaultVar, 0)

/-- A null source cell (with residual value contents, which must not be
copied). -/
def exNullSource : DpiData :=
  { isNull := true,
    value := { asBytes := ⟨some [9, 9], 2, 0⟩, asLOB := some 77,
               asObject := none, asStmt := none, asRowid := none } }

/-! Helper lemmas. -/

theorem mapIdxFrom_length (f : Nat → α → α) (n : Nat) (l : List α) :
    (mapIdxFrom f n l).length = l.length := by
  induction l generalizing n with
  | nil => rfl
  | cons a rest ih => simp [mapIdxFrom, ih]

theorem mapIdxFrom_map_isNull (f : Nat → DpiData → DpiData) (n : Nat)
    (l : List DpiData) (h : ∀ i a, (f i a).isNull = a.isNull) :
    (mapIdxFrom f n l).map (fun c => c.isNull) = l.map (fun c => c.isNull) := by
  induction l generalizing n with
  | nil => rfl
  | cons a rest ih => simp [mapIdxFrom, ih, h]

theorem map_isNull_forall {l : List DpiData} {n : Nat}
    (h : l.map (fun c => c.isNull) = List.replicate n true) :
    l.length = n ∧ ∀ c ∈ l, c.isNull = true := by
  have hlen : l.length = n := by
    have := congrArg List.length h
    simpa using this
  refine ⟨hlen, fun c hc => ?_⟩
  have : c.isNull ∈ List.replicate n true := h ▸ List.mem_map_of_mem _ hc
  exact (List.eq_of_mem_replicate this)

theorem sumAllocated32_eq (l : List DpiDynamicBytesChunk) (acc : Nat)
    (h : acc + (l.map (fun c => c.allocatedLength)).sum < UINT32_LIMIT) :
    sumAllocated32 l acc = acc + (l.map (fun c => c.allocatedLength)).sum := by
  induction l generalizing acc with
  | nil => simp [sumAllocated32]
  | cons c rest ih =>
      have h1 : acc + c.allocatedLength < UINT32_LIMIT := by
        simp [List.sum_cons] at h; omega
      have h2 : (acc + c.allocatedLength) % UINT32_LIMIT = acc + c.allocatedLength :=
        Nat.mod_eq_of_lt h1
      simp only [sumAllocated32, h2]
      rw [ih]
      · simp [List.sum_cons]; omega
      · simp [List.sum_cons] at h ⊢; omega

theorem consolidateLoop_eq (l : List DpiDynamicBytesChunk) (content : List Nat)
    (len : Nat)
    (h : len + (l.map (fun c => c.length)).sum < UINT32_LIMIT) :
    consolidateLoop l (content, len) =
      (content ++ (l.map (fun c => (c.ptr.getD []).take c.length)).flatten,
       len + (l.map (fun c => c.length)).sum) := by
  induction l generalizing content len with
  | nil => simp [consolidateLoop]
  | cons c rest ih =>
      have h1 : len + c.length < UINT32_LIMIT := by
        simp [List.sum_cons] at h; omega
      have h2 : (len + c.length) % UINT32_LIMIT = len + c.length :=
        Nat.mod_eq_of_lt h1
      simp only [consolidateLoop, h2]
      rw [ih]
      · simp [List.sum_cons, List.append_assoc]; omega
      · simp [List.sum_cons] at h ⊢; omega

theorem sumLen_le_sumAlloc {l : List DpiDynamicBytesChunk}
    (h : ∀ c ∈ l, c.length ≤ c.allocatedLength) :
    (l.map (fun c => c.length)).sum ≤ (l.map (fun c => c.allocatedLength)).sum :=
  List.sum_le_sum h

/-! Claim theorems. -/

/-- C3: `dpiVar__allocateDynamicBytes` does not guarantee
`chunks[0].allocatedLength >= requiredSize`: at `requiredSize = 4294967295`
(the largest `uint32_t`, which `dpiVar__setBytesFromLob` explicitly allows
and `dpiVar_setFromBytes` can pass) the 32-bit round-up
`(size + chunk - 1) & ~(chunk - 1)` wraps to 0, so the call completes with a
zero-byte first chunk — contradicting the claim and the function's own
documentation ("there will be exactly one allocated chunk of the specified
size or greater"). -/
theorem allocateDynamicBytes_overflow_failing_input :
    (dpiVar__allocateDynamicBytes emptyDynamicBytes 4294967295).numChunks = 0 ∧
    (dpiVar__allocateDynamicBytes emptyDynamicBytes 4294967295).chunks.headI.ptr
      = some [] ∧
    (dpiVar__allocateDynamicBytes emptyDynamicBytes 4294967295).chunks.headI.allocatedLength
      = 0 ∧
    (dpiVar__allocateDynamicBytes emptyDynamicBytes 4294967295).chunks.headI.allocatedLength
      < 4294967295 := by
  refine ⟨?_, ?_, ?_, ?_⟩ <;> decide

/-- C8: `dpiVar__allocate` with capacity 0 fails with `ArraySizeZero` for
every type, native kind, size and flag combination; the check is the first
validation performed, before any buffer or resource is allocated. -/
theorem allocate_capacity_zero_fails (env : DpiEnv) (type : DpiOracleType)
    (nativeTypeNum : DpiNativeTypeNum) (maxArraySize size : Nat)
    (sizeIsBytes isArray objectTypePresent : Bool) (fresh : Nat)
    (h : maxArraySize = 0) :
    dpiVar__allocate env type nativeTypeNum maxArraySize size sizeIsBytes
      isArray objectTypePresent fresh = .error .arraySizeZero := by
  subst h; rfl

theorem allocate_capacity_zero_fails_witness :
    (0 : Nat) = 0 ∧
    dpiVar__allocate exEnv exTypeVarchar .bytes 0 10 true false false 0 =
      .error .arraySizeZero :=
  ⟨rfl, allocate_capacity_zero_fails exEnv exTypeVarchar .bytes 0 10 true false
    false 0 rfl⟩

/-- C9: `dpiVar__allocate` treats a requested element size of 0 exactly as if
size 1 had been requested (the source replaces `size = 0` by 1 before any use
of the size), so a zero element size never causes a failure that size 1 would
not cause. -/
theorem allocate_size_zero_as_one (env : DpiEnv) (type : DpiOracleType)
    (nativeTypeNum : DpiNativeTypeNum) (maxArraySize : Nat)
    (sizeIsBytes isArray objectTypePresent : Bool) (fresh : Nat) :
    dpiVar__allocate env type nativeTypeNum maxArraySize 0 sizeIsBytes
        isArray objectTypePresent fresh =
      dpiVar__allocate env type nativeTypeNum maxArraySize 1 sizeIsBytes
        isArray objectTypePresent fresh := rfl

/-- C2: on a fixed (non-dynamic, non-scratch) byte-kind variable, writing a
value longer than the element size through `dpiVar_setFromBytes` fails with
`BufferSizeTooSmall` and returns the variable completely unchanged — the
length check precedes every mutation, so the slot's stored value, null flag,
actual length and return code are untouched. -/
theorem setFromBytes_too_long_fails_unchanged (var : DpiVar) (pos : Nat)
    (value : List Nat) (hpos : pos < var.maxArraySize)
    (hkind : var.nativeTypeNum = .bytes) (hdyn : var.dynamicBytes = none)
    (htmp : var.tempBuffer = none) (hlen : value.length > var.sizeInBytes) :
    dpiVar_setFromBytes var pos value =
      (var, [], some (.bufferSizeTooSmall var.sizeInBytes)) := by
  have hp : ¬ pos ≥ var.maxArraySize := by omega
  simp [dpiVar_setFromBytes, dpiVar__setFromBytes, hp, hkind, hdyn, htmp, hlen]

theorem setFromBytes_too_long_fails_unchanged_witness :
    1 < exFixedVar.maxArraySize ∧ exFixedVar.nativeTypeNum = .bytes ∧
    exFixedVar.dynamicBytes = none ∧ exFixedVar.tempBuffer = none ∧
    ([1, 2, 3, 4, 5] : List Nat).length > exFixedVar.sizeInBytes ∧
    dpiVar_setFromBytes exFixedVar 1 [1, 2, 3, 4, 5] =
      (exFixedVar, [], some (.bufferSizeTooSmall exFixedVar.sizeInBytes)) :=
  ⟨by decide, by decide, by decide, by decide, by decide,
   setFromBytes_too_long_fails_unchanged exFixedVar 1 [1, 2, 3, 4, 5]
     (by decide) (by decide) (by decide) (by decide) (by decide)⟩

/-- C10: `dpiVar__copyData` with a null source cell copies only the null flag
into the target's external cell and succeeds: the target cell's value, the
variable's native arrays, indicator entries and held references are all
unchanged and no reference-count event occurs. -/
theorem copyData_null_flag_only (var : DpiVar) (pos : Nat) (source : DpiData)
    (cells : List DpiData) (hnull : source.isNull = true)
    (hcells : var.externalData = some cells) :
    dpiVar__copyData var pos source =
      ({ var with
          externalData := some (cells.set pos
            { cells.getD pos emptyData with isNull := true }) },
       [], none) := by
  simp [dpiVar__copyData, hcells, hnull]

theorem copyData_null_flag_only_witness :
    exNullSource.isNull = true ∧
    exFixedVar.externalData = some exCells ∧
    dpiVar__copyData exFixedVar 0 exNullSource =
      ({ exFixedVar with
          externalData := some (exCells.set 0
            { exCells.getD 0 emptyData with isNull := true }) },
       [], none) :=
  ⟨rfl, rfl, copyData_null_flag_only exFixedVar 0 exNullSource exCells rfl rfl⟩

/-- C4: chunk consolidation. With exactly one chunk,
`dpiVar__setBytesFromDynamicBytes` exposes the chunk directly — the dynamic
byte set is untouched and nothing is freed (idempotent, zero-copy). With more
than one well-formed chunk (each pointer allocated at its reserved size, valid
length within reserve, reserves summing below `2^32`), it produces exactly one
chunk whose valid bytes are the in-order concatenation of all chunks' valid
bytes, whose length is the sum of the valid lengths, whose reserved size is
the sum of all reserved lengths, with every original chunk buffer freed
exactly once, in order. -/
theorem setBytesFromDynamicBytes_consolidates (b : DpiBytes) (d : DpiDynamicBytes) :
    (d.numChunks = 1 →
      dpiVar__setBytesFromDynamicBytes b d =
        ({ b with ptr := d.chunks.headI.ptr, length := d.chunks.headI.length },
         d, [])) ∧
    (2 ≤ d.numChunks → d.numChunks ≤ d.chunks.length →
      (∀ c ∈ d.chunks.take d.numChunks,
        c.ptr.isSome = true ∧ (c.ptr.getD []).length = c.allocatedLength ∧
          c.length ≤ c.allocatedLength) →
      ((d.chunks.take d.numChunks).map (fun c => c.allocatedLength)).sum < UINT32_LIMIT →
      ((((d.chunks.take d.numChunks).map
          (fun c => (c.ptr.getD []).take c.length)).flatten).length =
        ((d.chunks.take d.numChunks).map (fun c => c.length)).sum ∧
      dpiVar__setBytesFromDynamicBytes b d =
        ({ b with
            ptr := some
             (((d.chunks.take d.numChunks).map
                (fun c => (c.ptr.getD []).take c.length)).flatten ++
              List.replicate
                (((d.chunks.take d.numChunks).map (fun c => c.allocatedLength)).sum -
                 ((d.chunks.take d.numChunks).map (fun c => c.length)).sum) 0)
            length := ((d.chunks.take d.numChunks).map (fun c => c.length)).sum },
         { d with
            numChunks := 1
            chunks :=
              (⟨some
                 (((d.chunks.take d.numChunks).map
                    (fun c => (c.ptr.getD []).take c.length)).flatten ++
                  List.replicate
                    (((d.chunks.take d.numChunks).map (fun c => c.allocatedLength)).sum -
                     ((d.chunks.take d.numChunks).map (fun c => c.length)).sum) 0),
                ((d.chunks.take d.numChunks).map (fun c => c.length)).sum,
                ((d.chunks.take d.numChunks).map (fun c => c.allocatedLength)).sum⟩ :
                DpiDynamicBytesChunk) ::
              (List.replicate (d.numChunks - 1) emptyChunk ++
               d.chunks.drop d.numChunks) },
         (d.chunks.take d.numChunks).map (fun c => c.ptr.getD [])))) := by
  constructor
  · intro h1
    simp [dpiVar__setBytesFromDynamicBytes, h1]
  · intro h2 hle hwf hsum
    have hne : ¬ d.numChunks = 1 := by omega
    have hlensum : ((d.chunks.take d.numChunks).map (fun c => c.length)).sum ≤
        ((d.chunks.take d.numChunks).map (fun c => c.allocatedLength)).sum :=
      sumLen_le_sumAlloc (fun c hc => (hwf c hc).2.2)
    have hlen32 : ((d.chunks.take d.numChunks).map (fun c => c.length)).sum <
        UINT32_LIMIT := lt_of_le_of_lt hlensum hsum
    have hflatlen : ((((d.chunks.take d.numChunks).map
        (fun c => (c.ptr.getD []).take c.length)).flatten).length =
        ((d.chunks.take d.numChunks).map (fun c => c.length)).sum) := by
      rw [List.length_flatten, List.map_map]
      congr 1
      refine List.map_congr_left (fun c hc => ?_)
      have := (hwf c hc)
      simp only [Function.comp_apply, List.length_take, this.2.1]
      omega
    refine ⟨hflatlen, ?_⟩
    have hz : (0 : Nat) + ((d.chunks.take d.numChunks).map
        (fun c => c.allocatedLength)).sum < UINT32_LIMIT := by omega
    have hz2 : (0 : Nat) + ((d.chunks.take d.numChunks).map
        (fun c => c.length)).sum < UINT32_LIMIT := by omega
    simp only [dpiVar__setBytesFromDynamicBytes, hne, if_false,
      sumAllocated32_eq _ _ hz, consolidateLoop_eq _ _ _ hz2, Nat.zero_add,
      List.nil_append]

theorem setBytesFromDynamicBytes_consolidates_witness :
    (exDynOne.numChunks = 1 ∧
      dpiVar__setBytesFromDynamicBytes exBytes exDynOne =
        ({ exBytes with
            ptr := exDynOne.chunks.headI.ptr
            length := exDynOne.chunks.headI.length }, exDynOne, [])) ∧
    (2 ≤ exDyn3.numChunks ∧ exDyn3.numChunks ≤ exDyn3.chunks.length ∧
      (∀ c ∈ exDyn3.chunks.take exDyn3.numChunks,
        c.ptr.isSome = true ∧ (c.ptr.getD []).length = c.allocatedLength ∧
          c.length ≤ c.allocatedLength) ∧
      ((exDyn3.chunks.take exDyn3.numChunks).map (fun c => c.allocatedLength)).sum
        < UINT32_LIMIT ∧
      ((((exDyn3.chunks.take exDyn3.numChunks).map
          (fun c => (c.ptr.getD []).take c.length)).flatten).length =
        ((exDyn3.chunks.take exDyn3.numChunks).map (fun c => c.length)).sum ∧
      ((exDyn3.chunks.take exDyn3.numChunks).map (fun c => c.length)).sum = 4233 ∧
      dpiVar__setBytesFromDynamicBytes exBytes exDyn3 =
        ({ exBytes with
            ptr := some
             (((exDyn3.chunks.take exDyn3.numChunks).map
                (fun c => (c.ptr.getD []).take c.length)).flatten ++
              List.replicate
                (((exDyn3.chunks.take exDyn3.numChunks).map (fun c => c.allocatedLength)).sum -
                 ((exDyn3.chunks.take exDyn3.numChunks).map (fun c => c.length)).sum) 0)
            length := ((exDyn3.chunks.take exDyn3.numChunks).map (fun c => c.length)).sum },
         { exDyn3 with
            numChunks := 1
            chunks :=
              (⟨some
                 (((exDyn3.chunks.take exDyn3.numChunks).map
                    (fun c => (c.ptr.getD []).take c.length)).flatten ++
                  List.replicate
                    (((exDyn3.chunks.take exDyn3.numChunks).map (fun c => c.allocatedLength)).sum -
                     ((exDyn3.chunks.take exDyn3.numChunks).map (fun c => c.length)).sum) 0),
                ((exDyn3.chunks.take exDyn3.numChunks).map (fun c => c.length)).sum,
                ((exDyn3.chunks.take exDyn3.numChunks).map (fun c => c.allocatedLength)).sum⟩ :
                DpiDynamicBytesChunk) ::
              (List.replicate (exDyn3.numChunks - 1) emptyChunk ++
               exDyn3.chunks.drop exDyn3.numChunks) },
         (exDyn3.chunks.take exDyn3.numChunks).map (fun c => c.ptr.getD [])))) := by
  have h2 : 2 ≤ exDyn3.numChunks := by decide
  have hle : exDyn3.numChunks ≤ exDyn3.chunks.length := by decide
  have htake : exDyn3.chunks.take exDyn3.numChunks = [exChunkA, exChunkB, exChunkC] := rfl
  have hwf : ∀ c ∈ exDyn3.chunks.take exDyn3.numChunks,
      c.ptr.isSome = true ∧ (c.ptr.getD []).length = c.allocatedLength ∧
        c.length ≤ c.allocatedLength := by
    have pa : (exChunkA.ptr.getD []).length = exChunkA.allocatedLength := by
      rw [show exChunkA.ptr.getD [] = List.replicate 4096 1 from rfl,
        List.length_replicate]
      rfl
    have pb : (exChunkB.ptr.getD []).length = exChunkB.allocatedLength := by
      rw [show exChunkB.ptr.getD [] = List.replicate 4096 2 from rfl,
        List.length_replicate]
      rfl
    have pc : (exChunkC.ptr.getD []).length = exChunkC.allocatedLength := by
      rw [show exChunkC.ptr.getD [] = List.replicate 4096 3 from rfl,
        List.length_replicate]
      rfl
    intro c hc
    rw [htake] at hc
    simp only [List.mem_cons, List.not_mem_nil, or_false] at hc
    rcases hc with rfl | rfl | rfl
    · exact ⟨by decide, pa, by decide⟩
    · exact ⟨by decide, pb, by decide⟩
    · exact ⟨by decide, pc, by decide⟩
  have hsum : ((exDyn3.chunks.take exDyn3.numChunks).map
      (fun c => c.allocatedLength)).sum < UINT32_LIMIT := by
    rw [htake]; decide
  refine ⟨⟨by decide, (setBytesFromDynamicBytes_consolidates exBytes exDynOne).1 (by decide)⟩,
    h2, hle, hwf, hsum, ?_, ?_,
    ((setBytesFromDynamicBytes_consolidates exBytes exDyn3).2 h2 hle hwf hsum).2⟩
  · exact ((setBytesFromDynamicBytes_consolidates exBytes exDyn3).2 h2 hle hwf hsum).1
  · rw [htake]; decide

theorem refAt_setCellNotNull (var : DpiVar) (pos p : Nat) :
    refAt (setCellNotNull var pos) p = refAt var p := rfl

/-- C6: reference-count discipline of the complex-handle write path. For each
of the four complex-handle set operations, writing the handle the slot already
holds performs no reference-count mutation at all, while writing a different
handle performs exactly one release of the old strong reference followed by
exactly one acquisition of the new one. -/
theorem setFromHandle_refcount_discipline (var : DpiVar) (pos : Nat) (hNew : Nat) :
    (refAt var pos = some hNew →
      (dpiVar__setFromLob var pos hNew).2 = [] ∧
      (dpiVar__setFromObject var pos hNew).2 = [] ∧
      (dpiVar__setFromRowid var pos hNew).2 = [] ∧
      (dpiVar__setFromStmt var pos hNew).2 = []) ∧
    (∀ old, refAt var pos = some old → old ≠ hNew →
      (dpiVar__setFromLob var pos hNew).2 = [.release old, .addRef hNew] ∧
      (dpiVar__setFromObject var pos hNew).2 = [.release old, .addRef hNew] ∧
      (dpiVar__setFromRowid var pos hNew).2 = [.release old, .addRef hNew] ∧
      (dpiVar__setFromStmt var pos hNew).2 = [.release old, .addRef hNew]) := by
  constructor
  · intro hsame
    refine ⟨?_, ?_, ?_, ?_⟩ <;>
      simp [dpiVar__setFromLob, dpiVar__setFromObject, dpiVar__setFromRowid,
        dpiVar__setFromStmt, refAt_setCellNotNull, hsame]
  · intro old hold hne
    have hnotsame : ¬ refAt var pos = some hNew := by
      rw [hold]; simp; exact hne
    refine ⟨?_, ?_, ?_, ?_⟩ <;>
      simp [dpiVar__setFromLob, dpiVar__setFromObject, dpiVar__setFromRowid,
        dpiVar__setFromStmt, refAt_setCellNotNull, hnotsame, hold, hne]

theorem setFromHandle_refcount_discipline_witness :
    (refAt exRefVar 0 = some 41 ∧
      (dpiVar__setFromLob exRefVar 0 41).2 = [] ∧
      (dpiVar__setFromObject exRefVar 0 41).2 = [] ∧
      (dpiVar__setFromRowid exRefVar 0 41).2 = [] ∧
      (dpiVar__setFromStmt exRefVar 0 41).2 = []) ∧
    (refAt exRefVar 0 = some 41 ∧ (41 : Nat) ≠ 99 ∧
      (dpiVar__setFromLob exRefVar 0 99).2 = [.release 41, .addRef 99] ∧
      (dpiVar__setFromObject exRefVar 0 99).2 = [.release 41, .addRef 99] ∧
      (dpiVar__setFromRowid exRefVar 0 99).2 = [.release 41, .addRef 99] ∧
      (dpiVar__setFromStmt exRefVar 0 99).2 = [.release 41, .addRef 99]) :=
  ⟨⟨by decide, (setFromHandle_refcount_discipline exRefVar 0 41).1 (by decide)⟩,
   ⟨by decide, by decide,
    (setFromHandle_refcount_discipline exRefVar 0 99).2 41 (by decide) (by decide)⟩⟩

/-- C7 counterexample: the claim "after resize all slots are null" fails.
`exFixedVar` is a fixed byte-kind variable whose slot 0 is populated (its
indicator is not-null and its external cell is not null); `dpiVar_resize`
to element size 8 succeeds, yet the indicator array and the external cells
are retained with their prior entries, so slot 0 is still not null after the
resize. -/
theorem resize_not_all_slots_null_counterexample :
    (dpiVar_resize exFixedVar 8).2 = none ∧
    (dpiVar_resize exFixedVar 8).1.sizeInBytes = 8 ∧
    (dpiVar_resize exFixedVar 8).1.indicator =
      some [OCI_IND_NOTNULL, OCI_IND_NULL, OCI_IND_NULL] ∧
    (((dpiVar_resize exFixedVar 8).1.externalData.getD []).getD 0 emptyData).isNull
      = false := by
  refine ⟨?_, ?_, ?_, ?_⟩ <;> decide

/-- C7 (amended): resize on a variable whose native kind is not bytes fails
`NotSupported`; resize on a dynamic-bytes variable is a no-op returning
success; resize on a fixed byte-kind variable frees the existing value array,
updates the declared element size and allocates a fresh value array of
`capacity * newSize` zero bytes, preserving no data in it — but the
null-indicator, actual-length and external cell arrays are retained with
their prior entries (each slot's null state is unchanged, so previously
non-null slots remain non-null; the claim's "all slots are null" does not
hold). -/
theorem resize_behavior_amended (var : DpiVar) (newSize : Nat) :
    (var.nativeTypeNum ≠ .bytes → dpiVar_resize var newSize = (var, some .notSupported)) ∧
    (var.nativeTypeNum = .bytes → var.dynamicBytes.isSome = true →
      dpiVar_resize var newSize = (var, none)) ∧
    (∀ ind al cells, var.nativeTypeNum = .bytes → var.dynamicBytes = none →
      var.isDynamic = false → var.type.oracleTypeNum ≠ .number →
      var.indicator = some ind → var.actualLength = some al →
      var.externalData = some cells →
      var.maxArraySize * newSize ≤ INT_MAX →
      (dpiVar_resize var newSize).2 = none ∧
      (dpiVar_resize var newSize).1.sizeInBytes = newSize ∧
      (dpiVar_resize var newSize).1.data.asRaw =
        some (List.replicate (var.maxArraySize * newSize) 0) ∧
      (dpiVar_resize var newSize).1.indicator = some ind ∧
      (dpiVar_resize var newSize).1.actualLength = some al ∧
      ∃ cells2, (dpiVar_resize var newSize).1.externalData = some cells2 ∧
        cells2.map (fun c => c.isNull) = cells.map (fun c => c.isNull)) := by
  refine ⟨?_, ?_, ?_⟩
  · intro h
    simp [dpiVar_resize, h]
  · intro hb hd
    simp [dpiVar_resize, hb, hd]
  · intro ind al cells hb hd hdynF hnum hind hal hcells hfit
    have hfit' : ¬ var.maxArraySize * newSize > INT_MAX := by omega
    by_cases hrc : var.returnCode = none <;>
    by_cases hdnt : var.type.defaultNativeTypeNum = DpiNativeTypeNum.bytes <;>
      simp [dpiVar_resize, dpiVar__allocateBuffers, abStepData, abStepIndicator,
        abStepActualLength, abStepReturnCode, abStepTempBuffer,
        abStepExternalData, abStepBytesPointers, hb, hd, hdynF, hnum, hind, hal,
        hcells, hfit', hrc, hdnt, List.map_map]

theorem resize_behavior_amended_witness :
    (exVarInt.nativeTypeNum ≠ .bytes ∧
      dpiVar_resize exVarInt 8 = (exVarInt, some .notSupported)) ∧
    (exVarDyn.nativeTypeNum = .bytes ∧ exVarDyn.dynamicBytes.isSome = true ∧
      dpiVar_resize exVarDyn 8 = (exVarDyn, none)) ∧
    (exFixedVar.nativeTypeNum = .bytes ∧ exFixedVar.dynamicBytes = none ∧
      exFixedVar.isDynamic = false ∧
      exFixedVar.type.oracleTypeNum ≠ .number ∧
      exFixedVar.indicator = some [OCI_IND_NOTNULL, OCI_IND_NULL, OCI_IND_NULL] ∧
      exFixedVar.actualLength = some [2, 4, 4] ∧
      exFixedVar.externalData = some exCells ∧
      exFixedVar.maxArraySize * 8 ≤ INT_MAX ∧
      ((dpiVar_resize exFixedVar 8).2 = none ∧
       (dpiVar_resize exFixedVar 8).1.sizeInBytes = 8 ∧
       (dpiVar_resize exFixedVar 8).1.data.asRaw =
         some (List.replicate (exFixedVar.maxArraySize * 8) 0) ∧
       (dpiVar_resize exFixedVar 8).1.indicator =
         some [OCI_IND_NOTNULL, OCI_IND_NULL, OCI_IND_NULL] ∧
       (dpiVar_resize exFixedVar 8).1.actualLength = some [2, 4, 4] ∧
       ∃ cells2, (dpiVar_resize exFixedVar 8).1.externalData = some cells2 ∧
         cells2.map (fun c => c.isNull) = exCells.map (fun c => c.isNull))) :=
  ⟨⟨by decide, (resize_behavior_amended exVarInt 8).1 (by decide)⟩,
   ⟨by decide, by decide,
    (resize_behavior_amended exVarDyn 8).2.1 (by decide) (by decide)⟩,
   by decide, by decide, by decide, by decide, by decide, by decide, by decide,
   by decide,
   (resize_behavior_amended exFixedVar 8).2.2
     [OCI_IND_NOTNULL, OCI_IND_NULL, OCI_IND_NULL] [2, 4, 4] exCells
     (by decide) (by decide) (by decide) (by decide) (by decide) (by decide)
     (by decide) (by decide)⟩

/-- `dpiVar__extendedPreFetch` preserves the variable's identity, sizes and
buffer layout: only references, handle arrays, cell values and (for dynamic
variables) the chunk counts change. -/
theorem extendedPreFetch_fields (var : DpiVar) (fresh : Nat) :
    (dpiVar__extendedPreFetch var fresh).var.type = var.type ∧
    (dpiVar__extendedPreFetch var fresh).var.nativeTypeNum = var.nativeTypeNum ∧
    (dpiVar__extendedPreFetch var fresh).var.maxArraySize = var.maxArraySize ∧
    (dpiVar__extendedPreFetch var fresh).var.sizeInBytes = var.sizeInBytes ∧
    (dpiVar__extendedPreFetch var fresh).var.isDynamic = var.isDynamic ∧
    (dpiVar__extendedPreFetch var fresh).var.env = var.env ∧
    (dpiVar__extendedPreFetch var fresh).var.indicator = var.indicator ∧
    (dpiVar__extendedPreFetch var fresh).var.actualLength = var.actualLength ∧
    (dpiVar__extendedPreFetch var fresh).var.returnCode = var.returnCode ∧
    (dpiVar__extendedPreFetch var fresh).var.tempBuffer = var.tempBuffer ∧
    (dpiVar__extendedPreFetch var fresh).var.data.asRaw = var.data.asRaw ∧
    (dpiVar__extendedPreFetch var fresh).var.dynamicBytes.map List.length =
      var.dynamicBytes.map List.length ∧
    (dpiVar__extendedPreFetch var fresh).var.externalData.map
        (List.map (fun c => c.isNull)) =
      var.externalData.map (List.map (fun c => c.isNull)) := by
  cases hdyn : var.isDynamic with
  | true =>
      cases hdb : var.dynamicBytes <;>
        simp [dpiVar__extendedPreFetch, hdyn, hdb]
  | false =>
      cases ht : var.type.oracleTypeNum <;>
        cases hex : var.externalData <;>
          simp [dpiVar__extendedPreFetch, hdyn, ht, hex, mapIdxFrom_map_isNull,
            List.map_congr_left (fun (a : DpiData) _ => (rfl : a.isNull = a.isNull))]

/-- `dpiVar__extendedInitialize` preserves the same field bundle as the
prefetch (it additionally may set the references array, the descriptor flag
and the object indicator array, none of which are in the bundle). -/
theorem extendedInitialize_fields (var : DpiVar) (fresh : Nat) :
    (dpiVar__extendedInitialize var fresh).var.type = var.type ∧
    (dpiVar__extendedInitialize var fresh).var.nativeTypeNum = var.nativeTypeNum ∧
    (dpiVar__extendedInitialize var fresh).var.maxArraySize = var.maxArraySize ∧
    (dpiVar__extendedInitialize var fresh).var.sizeInBytes = var.sizeInBytes ∧
    (dpiVar__extendedInitialize var fresh).var.isDynamic = var.isDynamic ∧
    (dpiVar__extendedInitialize var fresh).var.env = var.env ∧
    (dpiVar__extendedInitialize var fresh).var.indicator = var.indicator ∧
    (dpiVar__extendedInitialize var fresh).var.actualLength = var.actualLength ∧
    (dpiVar__extendedInitialize var fresh).var.returnCode = var.returnCode ∧
    (dpiVar__extendedInitialize var fresh).var.tempBuffer = var.tempBuffer ∧
    (dpiVar__extendedInitialize var fresh).var.data.asRaw = var.data.asRaw ∧
    (dpiVar__extendedInitialize var fresh).var.dynamicBytes.map List.length =
      var.dynamicBytes.map List.length ∧
    (dpiVar__extendedInitialize var fresh).var.externalData.map
        (List.map (fun c => c.isNull)) =
      var.externalData.map (List.map (fun c => c.isNull)) := by
  by_cases hpf : (var.type.requiresPreFetch = true ∧ var.isDynamic = false) <;>
  by_cases hobj : var.objectTypePresent = false <;>
    cases ht : var.type.oracleTypeNum <;>
      simp [dpiVar__extendedInitialize, hpf, hobj, ht, extendedPreFetch_fields]

/-- `dpiVar__allocateBuffers` on a variable with no buffers yet (the shape
produced by `dpiVar__allocate` and by `dpiVar__finalizeBuffers`): on success
it preserves the identity fields, creates an all-null indicator array and an
all-null external data array of `maxArraySize` entries, and creates either the
dynamic byte sets (dynamic variables) or the single value array of
`maxArraySize * sizeInBytes` bytes (fixed variables), never both. -/
theorem allocateBuffers_fresh (var : DpiVar)
    (hind : var.indicator = none) (hal : var.actualLength = none)
    (hrc : var.returnCode = none) (htmp : var.tempBuffer = none)
    (hext : var.externalData = none) (hdb : var.dynamicBytes = none)
    (hraw : var.data.asRaw = none)
    (herr : (dpiVar__allocateBuffers var).err = none) :
    (dpiVar__allocateBuffers var).var.type = var.type ∧
    (dpiVar__allocateBuffers var).var.nativeTypeNum = var.nativeTypeNum ∧
    (dpiVar__allocateBuffers var).var.maxArraySize = var.maxArraySize ∧
    (dpiVar__allocateBuffers var).var.sizeInBytes = var.sizeInBytes ∧
    (dpiVar__allocateBuffers var).var.isDynamic = var.isDynamic ∧
    (dpiVar__allocateBuffers var).var.env = var.env ∧
    (dpiVar__allocateBuffers var).var.indicator =
      some (List.replicate var.maxArraySize OCI_IND_NULL) ∧
    (dpiVar__allocateBuffers var).var.externalData.map
        (List.map (fun c => c.isNull)) =
      some (List.replicate var.maxArraySize true) ∧
    (var.isDynamic = true →
      (dpiVar__allocateBuffers var).var.dynamicBytes =
        some (List.replicate var.maxArraySize emptyDynamicBytes) ∧
      (dpiVar__allocateBuffers var).var.data.asRaw = none) ∧
    (var.isDynamic = false →
      (dpiVar__allocateBuffers var).var.dynamicBytes = none ∧
      (dpiVar__allocateBuffers var).var.data.asRaw =
        some (List.replicate (var.maxArraySize * var.sizeInBytes) 0)) := by
  have hfit : ¬ (var.isDynamic = false ∧
      var.maxArraySize * var.sizeInBytes > INT_MAX) := by
    intro hcond
    unfold dpiVar__allocateBuffers at herr
    rw [if_pos hcond] at herr
    exact Option.noConfusion herr
  cases hdyn : var.isDynamic with
  | true =>
      by_cases hon : var.type.oracleTypeNum = DpiOracleTypeNum.number <;>
      by_cases hnb : var.nativeTypeNum = DpiNativeTypeNum.bytes <;>
        simp [dpiVar__allocateBuffers, abStepData, abStepIndicator,
          abStepActualLength, abStepReturnCode, abStepTempBuffer,
          abStepExternalData, abStepBytesPointers, List.map_replicate,
          hind, hal, hrc, htmp, hext, hdb, hraw, hdyn, hon, hnb, emptyData]
  | false =>
      have hngt : ¬ var.maxArraySize * var.sizeInBytes > INT_MAX :=
        fun hgt => hfit ⟨hdyn, hgt⟩
      by_cases hdnt : var.type.defaultNativeTypeNum = DpiNativeTypeNum.bytes <;>
      by_cases hon : var.type.oracleTypeNum = DpiOracleTypeNum.number <;>
      by_cases hnb : var.nativeTypeNum = DpiNativeTypeNum.bytes <;>
        simp [dpiVar__allocateBuffers, abStepData, abStepIndicator,
          abStepActualLength, abStepReturnCode, abStepTempBuffer,
          abStepExternalData, abStepBytesPointers, List.map_replicate,
          hind, hal, hrc, htmp, hext, hdb, hraw, hdyn, hdnt, hon, hnb, hngt,
          emptyData]

/-- `dpiVar__initBuffers` on a variable with no buffers yet: on success, the
identity fields are preserved, the indicator is a fresh all-null array, every
external cell is null, and the variable is chunked (dynamic) or contiguous
(fixed), never both. -/
theorem initBuffers_fresh (var : DpiVar) (fresh : Nat)
    (hind : var.indicator = none) (hal : var.actualLength = none)
    (hrc : var.returnCode = none) (htmp : var.tempBuffer = none)
    (hext : var.externalData = none) (hdb : var.dynamicBytes = none)
    (hraw : var.data.asRaw = none)
    (herr : (dpiVar__initBuffers var fresh).err = none) :
    (dpiVar__initBuffers var fresh).var.type = var.type ∧
    (dpiVar__initBuffers var fresh).var.nativeTypeNum = var.nativeTypeNum ∧
    (dpiVar__initBuffers var fresh).var.maxArraySize = var.maxArraySize ∧
    (dpiVar__initBuffers var fresh).var.sizeInBytes = var.sizeInBytes ∧
    (dpiVar__initBuffers var fresh).var.isDynamic = var.isDynamic ∧
    (dpiVar__initBuffers var fresh).var.env = var.env ∧
    (dpiVar__initBuffers var fresh).var.indicator =
      some (List.replicate var.maxArraySize OCI_IND_NULL) ∧
    (∃ cells, (dpiVar__initBuffers var fresh).var.externalData = some cells ∧
      cells.length = var.maxArraySize ∧ ∀ c ∈ cells, c.isNull = true) ∧
    (var.isDynamic = true →
      (dpiVar__initBuffers var fresh).var.data.asRaw = none ∧
      ∃ l, (dpiVar__initBuffers var fresh).var.dynamicBytes = some l ∧
        l.length = var.maxArraySize) ∧
    (var.isDynamic = false →
      (dpiVar__initBuffers var fresh).var.dynamicBytes = none ∧
      (dpiVar__initBuffers var fresh).var.data.asRaw =
        some (List.replicate (var.maxArraySize * var.sizeInBytes) 0)) := by
  cases habe : (dpiVar__allocateBuffers var).err with
  | some e =>
      exfalso
      rw [show dpiVar__initBuffers var fresh =
          { var := (dpiVar__allocateBuffers var).var, fresh := fresh,
            events := [], err := some e } from by
        unfold dpiVar__initBuffers
        dsimp only
        rw [habe]] at herr
      exact Option.noConfusion herr
  | none =>
      obtain ⟨a1, a2, a3, a4, a5, a6, a7, a8, a9, a10⟩ :=
        allocateBuffers_fresh var hind hal hrc htmp hext hdb hraw habe
      have hres : dpiVar__initBuffers var fresh =
          dpiVar__extendedInitialize (dpiVar__allocateBuffers var).var fresh := by
        unfold dpiVar__initBuffers
        dsimp only
        rw [habe]
      obtain ⟨e1, e2, e3, e4, e5, e6, e7, e8, e9, e10, e11, e12, e13⟩ :=
        extendedInitialize_fields (dpiVar__allocateBuffers var).var fresh
      rw [hres]
      refine ⟨e1.trans a1, e2.trans a2, e3.trans a3, e4.trans a4, e5.trans a5,
        e6.trans a6, e7.trans a7, ?_, ?_, ?_⟩
      · have hmap := e13.trans a8
        cases hcells :
            (dpiVar__extendedInitialize (dpiVar__allocateBuffers var).var
              fresh).var.externalData with
        | none => rw [hcells] at hmap; exact Option.noConfusion hmap
        | some cells =>
            rw [hcells] at hmap
            simp only [Option.map_some'] at hmap
            obtain ⟨hlen, hall⟩ := map_isNull_forall (Option.some.inj hmap)
            exact ⟨cells, rfl, hlen, hall⟩
      · intro hdyn
        obtain ⟨hdbEq, hrawEq⟩ := a9 hdyn
        refine ⟨e11.trans hrawEq, ?_⟩
        have hmap := e12
        rw [hdbEq] at hmap
        cases hl :
            (dpiVar__extendedInitialize (dpiVar__allocateBuffers var).var
              fresh).var.dynamicBytes with
        | none => rw [hl] at hmap; exact Option.noConfusion hmap
        | some l =>
            rw [hl] at hmap
            simp only [Option.map_some'] at hmap
            have hlen := Option.some.inj hmap
            exact ⟨l, rfl, by rw [hlen, List.length_replicate]⟩
      · intro hdyn
        obtain ⟨hdbEq, hrawEq⟩ := a10 hdyn
        refine ⟨?_, e11.trans hrawEq⟩
        have hmap := e12
        rw [hdbEq] at hmap
        exact Option.map_eq_none'.mp hmap

/-- C1: a variable created by `dpiVar__allocate` is marked dynamic exactly
when the computed element size in bytes exceeds the fixed basic-buffer
threshold — a comparison independent of the capacity; a dynamic variable has
no contiguous value array and carries a dynamic-byte-set array of exactly
`capacity` entries, while a non-dynamic variable carries a single contiguous
value array of `capacity * elementSize` bytes and no chunk structures. -/
theorem allocate_dynamic_iff_threshold (env : DpiEnv) (type : DpiOracleType)
    (nativeTypeNum : DpiNativeTypeNum) (maxArraySize size : Nat)
    (sizeIsBytes isArray objectTypePresent : Bool) (fresh : Nat)
    (r : DpiVar × Nat)
    (h : dpiVar__allocate env type nativeTypeNum maxArraySize size sizeIsBytes
      isArray objectTypePresent fresh = .ok r) :
    (r.1.isDynamic = decide (dpiVar__computedSizeInBytes env type size sizeIsBytes
      > DPI_MAX_BASIC_BUFFER_SIZE)) ∧
    (r.1.isDynamic = true →
      r.1.sizeInBytes = 0 ∧ r.1.data.asRaw = none ∧
      ∃ l, r.1.dynamicBytes = some l ∧ l.length = maxArraySize) ∧
    (r.1.isDynamic = false →
      r.1.sizeInBytes = dpiVar__computedSizeInBytes env type size sizeIsBytes ∧
      r.1.dynamicBytes = none ∧
      ∃ buf, r.1.data.asRaw = some buf ∧
        buf.length = maxArraySize * r.1.sizeInBytes) := by
  by_cases hcap : maxArraySize = 0
  · exfalso; simp [dpiVar__allocate, hcap] at h
  by_cases harr : (isArray = true ∧ type.canBeInArray = false)
  · exfalso; simp [dpiVar__allocate, hcap, harr] at h
  cases hval : (if nativeTypeNum = type.defaultNativeTypeNum then none
      else dpiVar__validateTypes type nativeTypeNum) with
  | some e => exfalso; simp [dpiVar__allocate, hcap, harr, hval] at h
  | none =>
      rw [show dpiVar__allocate env type nativeTypeNum maxArraySize size
          sizeIsBytes isArray objectTypePresent fresh =
        (match (dpiVar__initBuffers (allocVar0 env type nativeTypeNum
            maxArraySize size sizeIsBytes isArray objectTypePresent) fresh).err with
         | some e => Except.error e
         | none => Except.ok ((dpiVar__initBuffers (allocVar0 env type
              nativeTypeNum maxArraySize size sizeIsBytes isArray
              objectTypePresent) fresh).var,
            (dpiVar__initBuffers (allocVar0 env type nativeTypeNum maxArraySize
              size sizeIsBytes isArray objectTypePresent) fresh).fresh)) from by
        unfold dpiVar__allocate
        rw [if_neg hcap, if_neg harr, hval]] at h
      cases herr : (dpiVar__initBuffers (allocVar0 env type nativeTypeNum
          maxArraySize size sizeIsBytes isArray objectTypePresent) fresh).err with
      | some e => exfalso; rw [herr] at h; exact Except.noConfusion h
      | none =>
          rw [herr] at h
          have hr : r = ((dpiVar__initBuffers (allocVar0 env type nativeTypeNum
              maxArraySize size sizeIsBytes isArray objectTypePresent)
              fresh).var, _) := (Except.ok.inj h).symm
          obtain ⟨i1, i2, i3, i4, i5, i6, i7, i8, i9, i10⟩ :=
            initBuffers_fresh (allocVar0 env type nativeTypeNum maxArraySize
              size sizeIsBytes isArray objectTypePresent) fresh rfl rfl rfl rfl
              rfl rfl rfl herr
          rw [hr]
          dsimp only
          constructor
          · rw [i5]; rfl
          constructor
          · intro hdy
            rw [i5] at hdy
            have hdec : decide (dpiVar__computedSizeInBytes env type size
                sizeIsBytes > DPI_MAX_BASIC_BUFFER_SIZE) = true := hdy
            refine ⟨?_, (i9 hdy).1, ?_⟩
            · rw [i4]
              show (if decide (dpiVar__computedSizeInBytes env type size
                  sizeIsBytes > DPI_MAX_BASIC_BUFFER_SIZE) = true then 0
                else dpiVar__computedSizeInBytes env type size sizeIsBytes) = 0
              rw [hdec]
              simp
            · obtain ⟨l, hl, hlen⟩ := (i9 hdy).2
              exact ⟨l, hl, by rw [hlen]; rfl⟩
          · intro hdy
            rw [i5] at hdy
            have hdec : decide (dpiVar__computedSizeInBytes env type size
                sizeIsBytes > DPI_MAX_BASIC_BUFFER_SIZE) = false := hdy
            refine ⟨?_, (i10 hdy).1, ?_⟩
            · rw [i4]
              show (if decide (dpiVar__computedSizeInBytes env type size
                  sizeIsBytes > DPI_MAX_BASIC_BUFFER_SIZE) = true then 0
                else dpiVar__computedSizeInBytes env type size sizeIsBytes) =
                dpiVar__computedSizeInBytes env type size sizeIsBytes
              rw [hdec]
              simp
            · refine ⟨List.replicate ((allocVar0 env type nativeTypeNum
                maxArraySize size sizeIsBytes isArray
                objectTypePresent).maxArraySize *
                (allocVar0 env type nativeTypeNum maxArraySize size sizeIsBytes
                  isArray objectTypePresent).sizeInBytes) 0,
                (i10 hdy).2, ?_⟩
              rw [List.length_replicate, i4]
              rfl

theorem allocate_dynamic_iff_threshold_witness :
    dpiVar__allocate exEnv exTypeVarchar .bytes 2 40000 true false false 0 =
      .ok exR1 ∧
    ((exR1.1.isDynamic = decide (dpiVar__computedSizeInBytes exEnv exTypeVarchar
      40000 true > DPI_MAX_BASIC_BUFFER_SIZE)) ∧
    (exR1.1.isDynamic = true →
      exR1.1.sizeInBytes = 0 ∧ exR1.1.data.asRaw = none ∧
      ∃ l, exR1.1.dynamicBytes = some l ∧ l.length = 2) ∧
    (exR1.1.isDynamic = false →
      exR1.1.sizeInBytes = dpiVar__computedSizeInBytes exEnv exTypeVarchar
        40000 true ∧
      exR1.1.dynamicBytes = none ∧
      ∃ buf, exR1.1.data.asRaw = some buf ∧
        buf.length = 2 * exR1.1.sizeInBytes)) :=
  ⟨rfl,
   allocate_dynamic_iff_threshold exEnv exTypeVarchar .bytes 2 40000 true false
     false 0 exR1 rfl⟩

theorem assignCallbackBuffer_congr (v : DpiVar) (x : Nat)
    (al : Option (List Nat)) :
    dpiVar__assignCallbackBuffer { v with actualLength := al } x =
      dpiVar__assignCallbackBuffer v x := rfl

/-- The out-bind callback at a slot index other than 0 never queries the row
count and never reallocates: it always succeeds, supplies the pointer of the
current state, performs no reference-count event, and changes only the
slot's actual-length entry. -/
theorem outBindCallback_later (reported : Nat) (v : DpiVar) (f i : Nat)
    (hi : 1 ≤ i) :
    dpiVar__outBindCallback v f reported i =
      .ok { var := { v with
              actualLength := v.actualLength.map (fun l => l.set i v.sizeInBytes) },
            fresh := f, events := [],
            buf := dpiVar__assignCallbackBuffer v i } := by
  have hcond : ¬ (i = 0 ∧ reported > v.maxArraySize) := by
    intro hc; omega
  simp [dpiVar__outBindCallback, hcond]

theorem outBindRunAux_steady (reported : Nat) :
    ∀ (k : Nat) (v : DpiVar) (f i : Nat), 1 ≤ i →
    ∃ vfin, outBindRunAux reported v f i k =
        .ok (vfin, f,
          (List.range k).map (fun j => dpiVar__assignCallbackBuffer v (i + j))) ∧
      vfin.maxArraySize = v.maxArraySize
  | 0, v, f, i, _ => ⟨v, by simp [outBindRunAux], rfl⟩
  | k + 1, v, f, i, hi => by
      obtain ⟨vfin, hrun, hmax⟩ := outBindRunAux_steady reported k
        { v with actualLength := v.actualLength.map (fun l => l.set i v.sizeInBytes) }
        f (i + 1) (by omega)
      refine ⟨vfin, ?_, by rw [hmax]⟩
      rw [show outBindRunAux reported v f i (k + 1) =
          (match outBindRunAux reported
              { v with actualLength := v.actualLength.map (fun l => l.set i v.sizeInBytes) }
              f (i + 1) k with
            | .error e => .error e
            | .ok (vf, ff, bufs) =>
                .ok (vf, ff, dpiVar__assignCallbackBuffer v i :: bufs)) from by
        rw [show outBindRunAux reported v f i (k + 1) =
            (match dpiVar__outBindCallback v f reported i with
              | .error e => .error e
              | .ok r =>
                  match outBindRunAux reported r.var r.fresh (i + 1) k with
                  | .error e => .error e
                  | .ok (vf, ff, bufs) => .ok (vf, ff, r.buf :: bufs)) from rfl]
        rw [outBindCallback_later reported v f i hi]]
      rw [hrun]
      simp only [List.range_succ_eq_map, List.map_cons, List.map_map, Nat.add_zero]
      congr 1
      simp only [Prod.mk.injEq, List.cons.injEq, true_and]
      refine List.map_congr_left (fun j _ => ?_)
      rw [assignCallbackBuffer_congr]
      simp only [Function.comp_apply]
      congr 1
      omega

/-- C5: DML-returning growth. During a returning-style execute, the reported
row count is inspected only at slot index 0: if it exceeds the capacity, the
slot-0 callback tears the buffers down and reallocates them at the reported
capacity, with every post-growth slot null (fresh all-null indicator, every
external cell null). Every later-index callback never reallocates — it
succeeds, supplies the buffer pointer computed from the current (post-growth)
state and only records that slot's element length — so over a whole execute
of `n + 1` slots the growth happens exactly once, before slot 1's pointer is
produced: the buffers handed out are the slot-0 pointer followed by pointers
computed from the grown state, and the capacity stays the reported row count
to the end. -/
theorem outBind_growth_at_slot_zero (var : DpiVar) (fresh reported : Nat)
    (r : OBRes) (hgrow : reported > var.maxArraySize)
    (h0 : dpiVar__outBindCallback var fresh reported 0 = .ok r) :
    r.var.maxArraySize = reported ∧
    r.var.indicator = some (List.replicate reported OCI_IND_NULL) ∧
    (∃ cells, r.var.externalData = some cells ∧ cells.length = reported ∧
      ∀ c ∈ cells, c.isNull = true) ∧
    (∀ (v : DpiVar) (f i : Nat), 1 ≤ i →
      dpiVar__outBindCallback v f reported i =
        .ok { var := { v with
                actualLength := v.actualLength.map (fun l => l.set i v.sizeInBytes) },
              fresh := f, events := [],
              buf := dpiVar__assignCallbackBuffer v i }) ∧
    (∀ n, ∃ vfin ffin,
      dpiVar__outBindRun var fresh reported (n + 1) =
        .ok (vfin, ffin, r.buf ::
          (List.range n).map (fun j => dpiVar__assignCallbackBuffer r.var (1 + j))) ∧
      vfin.maxArraySize = reported) := by
  have hcond : ((0 : Nat) = 0 ∧ reported > var.maxArraySize) := ⟨rfl, hgrow⟩
  have h0u := h0
  unfold dpiVar__outBindCallback at h0u
  rw [if_pos hcond] at h0u
  cases herr : (dpiVar__initBuffers (grownVar var reported) fresh).err with
  | some e =>
      exfalso
      rw [herr] at h0u
      exact Except.noConfusion h0u
  | none =>
      rw [herr] at h0u
      have hr := (Except.ok.inj h0u).symm
      obtain ⟨i1, i2, i3, i4, i5, i6, i7, i8, i9, i10⟩ :=
        initBuffers_fresh (grownVar var reported) fresh rfl rfl rfl rfl rfl rfl
          rfl herr
      refine ⟨?_, ?_, ?_,
        fun v f i hi => outBindCallback_later reported v f i hi, ?_⟩
      · rw [hr]; exact i3
      · rw [hr]; exact i7
      · rw [hr]; exact i8
      · intro n
        obtain ⟨vfin, hrun, hmax⟩ := outBindRunAux_steady reported n r.var
          r.fresh 1 (le_refl 1)
        refine ⟨vfin, r.fresh, ?_, ?_⟩
        · rw [show dpiVar__outBindRun var fresh reported (n + 1) =
              (match dpiVar__outBindCallback var fresh reported 0 with
                | .error e => .error e
                | .ok s =>
                    match outBindRunAux reported s.var s.fresh 1 n with
                    | .error e => .error e
                    | .ok (vf, ff, bufs) => .ok (vf, ff, s.buf :: bufs)) from rfl]
          rw [h0]
          dsimp only
          rw [hrun]
        · rw [hmax, hr]
          exact i3

theorem outBind_growth_at_slot_zero_witness :
    (12 : Nat) > exVar5.maxArraySize ∧
    dpiVar__outBindCallback exVar5 0 12 0 = .ok exOB5 ∧
    (exOB5.var.maxArraySize = 12 ∧
    exOB5.var.indicator = some (List.replicate 12 OCI_IND_NULL) ∧
    (∃ cells, exOB5.var.externalData = some cells ∧ cells.length = 12 ∧
      ∀ c ∈ cells, c.isNull = true) ∧
    (∀ (v : DpiVar) (f i : Nat), 1 ≤ i →
      dpiVar__outBindCallback v f 12 i =
        .ok { var := { v with
                actualLength := v.actualLength.map (fun l => l.set i v.sizeInBytes) },
              fresh := f, events := [],
              buf := dpiVar__assignCallbackBuffer v i }) ∧
    (∀ n, ∃ vfin ffin,
      dpiVar__outBindRun exVar5 0 12 (n + 1) =
        .ok (vfin, ffin, exOB5.buf ::
          (List.range n).map (fun j => dpiVar__assignCallbackBuffer exOB5.var (1 + j))) ∧
      vfin.maxArraySize = 12)) :=
  ⟨by decide, rfl, outBind_growth_at_slot_zero exVar5 0 12 exOB5 (by decide) rfl⟩

end ODPI
